import Mathlib

/-! # whatsapp-shop-bot: the conversation engine

A shallow embedding of the message handler of `src/index.js` (the body of the
`messages.upsert` listener, one inbound message at a time), of the shop
commands of `src/features/shopCommands.js` and of `setupUserSession` of
`src/utils.js`, followed by theorems about them.

Modelling conventions.

* `database.json` and `settings.json` are not part of the sources; the catalog
  is a field of the environment `Env` that every function receives.
* JavaScript strings are Lean strings. `trim`, `split(',')`, `parseInt`,
  `isNaN` and `includes` are defined below following ECMA-262.
  `String.prototype.toLowerCase` needs the Unicode tables, so it is a field of
  `Env`, constrained only by its behaviour on ASCII text.
* Prices are rationals and timestamps are integers; sums and products of
  finite numbers are exact (rounding of these is outside the model).
  `parseInt` below returns the integer that the digits denote, `none` for
  `NaN`; the Number that the code keeps for it is `Env.toNumber` of that
  integer, which is the integer itself up to 2^53 in absolute value and
  otherwise whatever double the host rounds it to, `Infinity` included.
* A reply is the template that produced it together with the interpolated
  data; concatenation into one string, `toFixed(2)` and the download of the
  image are rendering. The `image` of a reply is the reference handed to
  `getImageAsBuffer`.
* Analytics and console logging are not modelled.
-/

namespace ShopBot

/-! ## String primitives -/

/-- WhiteSpace and LineTerminator code points of ECMA-262, as removed by
`trim` and skipped by `parseInt` and by the string-to-number conversion. -/
def isWhiteSpace (c : Char) : Bool :=
  let n := c.toNat
  n == 9 || n == 10 || n == 11 || n == 12 || n == 13 || n == 32 || n == 160 ||
  n == 0x1680 || (0x2000 ≤ n && n ≤ 0x200A) || n == 0x2028 || n == 0x2029 ||
  n == 0x202F || n == 0x205F || n == 0x3000 || n == 0xFEFF

/-- The method `s.trim()` on the list of characters. -/
def trimChars (cs : List Char) : List Char :=
  ((cs.dropWhile isWhiteSpace).reverse.dropWhile isWhiteSpace).reverse

/-- The method `s.split(',')` on the list of characters: never empty. -/
def splitComma : List Char → List (List Char)
  | [] => [[]]
  | c :: cs =>
    if c = ',' then [] :: splitComma cs
    else
      match splitComma cs with
      | [] => [[c]]
      | f :: fs => (c :: f) :: fs

/-- The expression `s.split(',').map(item => item.trim())`. -/
def splitTrim (s : String) : List String :=
  (splitComma s.data).map fun f => (⟨trimChars f⟩ : String)

/-- Lower-casing of the ASCII letters, every other character unchanged. -/
def asciiLowerChar (c : Char) : Char :=
  if 65 ≤ c.toNat ∧ c.toNat ≤ 90 then Char.ofNat (c.toNat + 32) else c

/-- Lower-casing of the ASCII letters of a string. -/
def asciiLower (s : String) : String := ⟨s.data.map asciiLowerChar⟩

/-- Whether every character of the string is ASCII. -/
def isAscii (s : String) : Bool := s.data.all fun c => decide (c.toNat < 128)

/-- Value of a character as a digit in radix up to 36. -/
def digitVal (c : Char) : Option Nat :=
  let n := c.toNat
  if 48 ≤ n ∧ n ≤ 57 then some (n - 48)
  else if 97 ≤ n ∧ n ≤ 122 then some (n - 87)
  else if 65 ≤ n ∧ n ≤ 90 then some (n - 55)
  else none

/-- Value of a character as a digit of radix `R`, if it is one. -/
def radixDigit (R : Nat) (c : Char) : Option Nat :=
  match digitVal c with
  | some d => if d < R then some d else none
  | none => none

/-- Longest prefix of radix-`R` digits, as digit values. -/
def takeDigits (R : Nat) : List Char → List Nat
  | [] => []
  | c :: cs =>
    match radixDigit R c with
    | some d => d :: takeDigits R cs
    | none => []

/-- Value of a list of digits, most significant first. -/
def ofDigits (R : Nat) (ds : List Nat) : Nat :=
  ds.foldl (fun acc d => acc * R + d) 0

/-- Sign step of `parseInt`: a leading `-` or `+` is removed. -/
def stripSign : List Char → Bool × List Char
  | '-' :: r => (true, r)
  | '+' :: r => (false, r)
  | cs => (false, cs)

/-- Radix step of `parseInt` without a radix argument: `0x`/`0X` selects 16. -/
def stripRadix : List Char → Nat × List Char
  | '0' :: 'x' :: r => (16, r)
  | '0' :: 'X' :: r => (16, r)
  | cs => (10, cs)

/-- The function `parseInt(s)` of ECMA-262 with no radix argument; `none` is `NaN`. -/
def parseInt (s : String) : Option Int :=
  let signed := stripSign (s.data.dropWhile isWhiteSpace)
  let rad := stripRadix signed.2
  match takeDigits rad.1 rad.2 with
  | [] => none
  | d :: ds =>
    let v : Int := (ofDigits rad.1 (d :: ds) : Nat)
    some (if signed.1 then -v else v)

/-- Whether the character is a decimal digit. -/
def isDecDigit (c : Char) : Bool := decide (48 ≤ c.toNat ∧ c.toNat ≤ 57)

/-- Nonempty and made of digits of radix `R` only. -/
def allRadixDigits (R : Nat) (cs : List Char) : Bool :=
  !cs.isEmpty && cs.all fun c => (radixDigit R c).isSome

/-- ExponentPart (optional) up to the end of the string. -/
def isExponentTail : List Char → Bool
  | [] => true
  | e :: r =>
    (e == 'e' || e == 'E') &&
      (match r with
       | '+' :: ds => allRadixDigits 10 ds
       | '-' :: ds => allRadixDigits 10 ds
       | ds => allRadixDigits 10 ds)

/-- StrUnsignedDecimalLiteral other than `Infinity`. -/
def isUnsignedDecimal (cs : List Char) : Bool :=
  let intPart := cs.takeWhile isDecDigit
  let rest := cs.dropWhile isDecDigit
  match rest with
  | '.' :: r =>
    let fracPart := r.takeWhile isDecDigit
    (!intPart.isEmpty || !fracPart.isEmpty) && isExponentTail (r.dropWhile isDecDigit)
  | _ => !intPart.isEmpty && isExponentTail rest

/-- StrNumericLiteral: the trimmed strings that `Number` converts to a number
other than `NaN`, the empty string (which converts to 0) apart. -/
def isNumericLiteral (cs : List Char) : Bool :=
  match cs with
  | '0' :: 'x' :: r => allRadixDigits 16 r
  | '0' :: 'X' :: r => allRadixDigits 16 r
  | '0' :: 'o' :: r => allRadixDigits 8 r
  | '0' :: 'O' :: r => allRadixDigits 8 r
  | '0' :: 'b' :: r => allRadixDigits 2 r
  | '0' :: 'B' :: r => allRadixDigits 2 r
  | _ =>
    let body := (stripSign cs).2
    body == "Infinity".data || isUnsignedDecimal body

/-- The function `isNaN(s)` for a string `s`: `Number(s)` is `NaN`. -/
def isNaN (s : String) : Bool :=
  let t := trimChars s.data
  !(t.isEmpty || isNumericLiteral t)

/-- Whether `needle` starts `hay`. -/
def startsWithChars : List Char → List Char → Bool
  | [], _ => true
  | _ :: _, [] => false
  | a :: as, b :: bs => a == b && startsWithChars as bs

/-- The method `hay.includes(needle)` on lists of characters. -/
def includesChars (needle : List Char) : List Char → Bool
  | [] => needle.isEmpty
  | c :: cs => startsWithChars needle (c :: cs) || includesChars needle cs

/-- The method `hay.includes(needle)`. -/
def includes (hay needle : String) : Bool := includesChars needle.data hay.data

/-- Truthiness of an optional string: `null`, `undefined` and `''` are falsy. -/
def truthy : Option String → Bool
  | some s => !s.data.isEmpty
  | none => false

/-- The expression `a || b` on optional strings. -/
def orElse (a b : Option String) : Option String := if truthy a then a else b

/-- The expression `a || 'literal'` for an optional string `a`. -/
def orDefault (a : Option String) (literal : String) : String :=
  match a with
  | some s => if s.data.isEmpty then literal else s
  | none => literal

/-! ## Numbers -/

/-- The Number that `parseInt` returns when it is not `NaN`, which is the
`quantity` of a cart line: an integer-valued double, `Infinity` or
`-Infinity`, or, once the line went through `JSON.stringify`, the `null`
written for a number that is not finite. -/
inductive Quantity where
  | finite (n : Int)
  | infinity (negative : Bool)
  | null
deriving DecidableEq, Repr

/-- A numeral written for a quantity is the finite quantity of that value. -/
instance (n : Nat) : OfNat Quantity n := ⟨.finite n⟩

/-- An amount as the code computes it: a number, `Infinity` or `-Infinity`,
or `NaN`. -/
inductive Amount where
  | finite (value : ℚ)
  | infinity (negative : Bool)
  | nan
deriving DecidableEq, Repr

/-- The sum `a + b` of two amounts. -/
def Amount.add : Amount → Amount → Amount
  | .finite a, .finite b => .finite (a + b)
  | .finite _, .infinity t => .infinity t
  | .infinity s, .finite _ => .infinity s
  | .infinity s, .infinity t => if s = t then .infinity s else .nan
  | .nan, _ => .nan
  | _, .nan => .nan

/-- The product `product.price * item.quantity`: `null` counts as 0, and 0
times an infinity is `NaN`. -/
def lineTotal (price : ℚ) : Quantity → Amount
  | .finite n => .finite (price * (n : ℚ))
  | .null => .finite 0
  | .infinity negative =>
    if price = 0 then .nan else .infinity (negative != decide (price < 0))

/-- The quantity as `JSON.stringify` writes it into the session file: a
number that is not finite becomes `null`. -/
def persistQuantity : Quantity → Quantity
  | .finite n => .finite n
  | .infinity _ => .null
  | .null => .null

/-- The number of binary digits of `a`, by halving at most `fuel` times. -/
def bitLength : Nat → Nat → Nat
  | 0, _ => 0
  | fuel + 1, a => if a = 0 then 0 else bitLength fuel (a / 2) + 1

/-- The double nearest to a natural number, ties to the even significand;
`none` from 2^1024 on, where the double is an infinity. -/
def roundNat (a : Nat) : Option Nat :=
  if a < 2 ^ 53 then some a
  else
    let e := bitLength a a - 53
    let q := a / 2 ^ e
    let r := a % 2 ^ e
    let half := 2 ^ (e - 1)
    let significand := if half < r ∨ (r = half ∧ q % 2 = 1) then q + 1 else q
    if 1024 < bitLength a (significand * 2 ^ e) then none else some (significand * 2 ^ e)

/-- The Number of an integer on a host that rounds to the nearest double. -/
def roundToDouble (n : Int) : Quantity :=
  match roundNat n.natAbs with
  | some v => .finite (if n < 0 then -(v : Int) else (v : Int))
  | none => .infinity (decide (n < 0))

/-! ## Data model -/

/-- Entry of `database.categories`. -/
structure Category where
  id : Nat
  name : String
  image : Option String := none
deriving DecidableEq, Repr

/-- Entry of `database.products`. -/
structure Product where
  id : String
  name : String
  price : ℚ
  description : String := ""
  category : Nat
  image : Option String := none
  sizes : List String := []
  colors : List String := []
deriving DecidableEq, Repr

/-- Contents of `database.json`. -/
structure Database where
  categories : List Category
  products : List Product
  featuredImage : Option String := none

/-- Image references of `settings.json` (its `botName`, `currency` and
`paymentMethod` are constants of the rendering). -/
structure Settings where
  defaultImage : Option String := none
  cartImage : Option String := none
  checkoutImage : Option String := none

/-- What the functions read from outside: the two JSON files, the
`toLowerCase` of the host, which on ASCII text lowers the letters A to Z, and
the Number the host makes of the integer that `parseInt` read, which is a
number, never `null`, and is that integer when it is at most 2^53 in absolute
value. -/
structure Env where
  database : Database
  settings : Settings
  toLowerCase : String → String
  toLowerCase_ascii : ∀ s, isAscii s = true → toLowerCase s = asciiLower s
  toNumber : Int → Quantity
  toNumber_safe : ∀ n : Int, n.natAbs ≤ 2 ^ 53 → toNumber n = .finite n
  toNumber_number : ∀ n : Int, toNumber n ≠ .null

/-- The `state` values of a session; `other` is any value that none of the
`case` labels of the dispatch matches. -/
inductive State where
  | initial
  | main_menu
  | searching
  | search_results
  | category_selected
  | item_selected
  | cart
  | checkout
  | other
deriving DecidableEq, Repr

/-- One entry pushed on `userSession.cart`. -/
structure CartLine where
  item : Option String
  quantity : Quantity
  size : String
  color : String
deriving DecidableEq, Repr

/-- The session record of one user, as the session file holds it. `none`
stands for an absent or `null` field. Every record the program writes has a
`cart` array, and no quantity in a file is an infinity. -/
structure Session where
  state : State
  cart : List CartLine
  lastInteraction : Option Int := none
  lastState : Option State := none
  tempState : Option String := none
  currentCategory : Option String := none
  currentItem : Option String := none
deriving DecidableEq, Repr

/-- A displayed cart line: its 1-based number in the cart, the product, the
line and the line total. -/
structure CartRow where
  number : Nat
  product : Product
  line : CartLine
  itemTotal : Amount
deriving DecidableEq, Repr

/-- A line of the checkout summary: product name, quantity and line total. -/
structure CheckoutRow where
  name : String
  quantity : Quantity
  itemTotal : Amount
deriving DecidableEq, Repr

/-- The text of a reply: the template and the values interpolated in it. -/
inductive Body where
  | menu (userName : String) (categoryNames : List String)
  | menuError
  | invalidSelection (count : Nat)
  | noProducts (categoryName : String)
  | productList (categoryName : String) (rows : List (Nat × Product))
  | categoryNotFound
  | productDetails (product : Product)
  | itemError
  | cartEmpty
  | cart (rows : List CartRow) (total : Amount)
  | checkout (userName : String) (rows : List CheckoutRow) (total : Amount)
  | noResults (query : String)
  | searchResults (query : String) (rows : List (Nat × Product))
  | welcomeBack (senderName : String)
  | searchPrompt
  | quantityPrompt
  | orderConfirmed (senderName : String) (total : Amount)
  | orderCanceled
deriving DecidableEq, Repr

/-- An object returned by a shop command or passed to `sock.sendMessage`:
`body` is its `text` or `caption`, the other fields are `none` when absent. -/
structure Response where
  body : Body
  image : Option String := none
  success : Option Bool := none
  categoryName : Option String := none
  item : Option String := none
  results : Option (List String) := none
deriving DecidableEq, Repr

/-! ## Shop commands (`src/features/shopCommands.js`) -/

/-- The numbering of `xs.forEach((x, index) => ...)` that renders
`index + 1` in front of each entry. -/
def numbered {α : Type} (xs : List α) : List (Nat × α) :=
  xs.enum.map fun entry => (entry.1 + 1, entry.2)

/-- The names of the categories, as listed by the main menu. -/
def categoryNames (env : Env) : List String := env.database.categories.map (·.name)

/-- The command `handleMainMenu(userName)`. The image is
`database.featuredImage || categories[0].image || settings.defaultImage`;
reading `categories[0].image` of an empty catalog throws, and the `catch`
returns the error text. -/
def handleMainMenu (env : Env) (userName : String) : Response :=
  if truthy env.database.featuredImage then
    { body := .menu userName (categoryNames env), image := env.database.featuredImage }
  else
    match env.database.categories with
    | [] => { body := .menuError }
    | c :: _ =>
      { body := .menu userName (categoryNames env),
        image := orElse c.image env.settings.defaultImage }

/-- The line `const selectionNum = !isNaN(selection) ? parseInt(selection) - 1 : -1`;
`none` is `NaN`. -/
def selectionNum (selection : String) : Option Int :=
  if isNaN selection then some (-1) else (parseInt selection).map (· - 1)

/-- The search `xs.find(x => x.name.toLowerCase() === selection.toLowerCase())`. -/
def findByName {α : Type} (env : Env) (name : α → String) (xs : List α)
    (selection : String) : Option α :=
  xs.find? fun x => env.toLowerCase (name x) == env.toLowerCase selection

/-- The selection of both commands: `xs[selectionNum]` when
`selectionNum >= 0 && selectionNum < xs.length` (false on `NaN`), else the
first entry whose lower-cased name is the lower-cased selection. -/
def selectEntry {α : Type} (env : Env) (name : α → String) (xs : List α)
    (selection : String) : Option α :=
  match selectionNum selection with
  | some k =>
    if 0 ≤ k ∧ k < (xs.length : Int) then xs.get? k.toNat
    else findByName env name xs selection
  | none => findByName env name xs selection

/-- The list `database.products.filter(p => p.category === id)`. -/
def productsOf (env : Env) (categoryId : Nat) : List Product :=
  env.database.products.filter fun p => p.category == categoryId

/-- The command `handleCategorySelection` from `const categoryProducts = ...` on, for the
category that was selected. -/
def showCategory (env : Env) (selectedCategory : Category) : Response :=
  let categoryProducts := productsOf env selectedCategory.id
  if categoryProducts.length = 0 then
    { body := .noProducts selectedCategory.name, success := some false }
  else
    { body := .productList selectedCategory.name (numbered categoryProducts),
      image := orElse selectedCategory.image env.settings.defaultImage,
      success := some true,
      categoryName := some selectedCategory.name }

/-- The command `handleCategorySelection(selection)`. -/
def handleCategorySelection (env : Env) (selection : String) : Response :=
  let categories := env.database.categories
  match selectEntry env Category.name categories selection with
  | none => { body := .invalidSelection categories.length, success := some false }
  | some selectedCategory => showCategory env selectedCategory

/-- The command `handleItemSelection` from the analytics call on, for the product that
was selected. -/
def showProduct (env : Env) (selectedProduct : Product) : Response :=
  { body := .productDetails selectedProduct,
    image := orElse selectedProduct.image env.settings.defaultImage,
    success := some true,
    item := some selectedProduct.id }

/-- The search `database.categories.find(c => c.name.toLowerCase() === categoryName.toLowerCase())`
for a `categoryName` that is a string. -/
def findCategory (env : Env) (categoryName : String) : Option Category :=
  env.database.categories.find? fun c =>
    env.toLowerCase c.name == env.toLowerCase categoryName

/-- The command `handleItemSelection(selection, categoryName)`. With `categoryName` null
or undefined, `categoryName.toLowerCase()` throws as soon as `find` visits a
category, and the `catch` returns the error text. -/
def handleItemSelection (env : Env) (selection : String) (categoryName : Option String) :
    Response :=
  match categoryName with
  | none =>
    match env.database.categories with
    | [] => { body := .categoryNotFound, success := some false }
    | _ :: _ => { body := .itemError, success := some false }
  | some cn =>
    match findCategory env cn with
    | none => { body := .categoryNotFound, success := some false }
    | some selectedCategory =>
      let categoryProducts := productsOf env selectedCategory.id
      match selectEntry env Product.name categoryProducts selection with
      | none => { body := .invalidSelection categoryProducts.length, success := some false }
      | some selectedProduct => showProduct env selectedProduct

/-- The search `products.find(p => p.id === item.item)`. -/
def findProduct (env : Env) (item : Option String) : Option Product :=
  env.database.products.find? fun p => some p.id == item

/-- The `forEach` of `handleCart` from position `index` of the cart on, with
the rows rendered so far and the running `total`. -/
def cartForEach (env : Env) :
    Nat → List CartLine → List CartRow × Amount → List CartRow × Amount
  | _, [], acc => acc
  | index, item :: rest, acc =>
    match findProduct env item.item with
    | some product =>
      let itemTotal := lineTotal product.price item.quantity
      cartForEach env (index + 1) rest
        (acc.1 ++ [{ number := index + 1, product := product, line := item,
                      itemTotal := itemTotal }], acc.2.add itemTotal)
    | none => cartForEach env (index + 1) rest acc

/-- The command `handleCart(cart)`. -/
def handleCart (env : Env) (cart : List CartLine) : Response :=
  if cart.length = 0 then { body := .cartEmpty }
  else
    let r := cartForEach env 0 cart ([], .finite 0)
    { body := .cart r.1 r.2,
      image := orElse env.settings.cartImage env.settings.defaultImage }

/-- The `forEach` of `handleCheckout`, with the rows rendered so far and the
running `total`. -/
def checkoutForEach (env : Env) :
    List CartLine → List CheckoutRow × Amount → List CheckoutRow × Amount
  | [], acc => acc
  | item :: rest, acc =>
    match findProduct env item.item with
    | some product =>
      let itemTotal := lineTotal product.price item.quantity
      checkoutForEach env rest
        (acc.1 ++ [{ name := product.name, quantity := item.quantity,
                      itemTotal := itemTotal }], acc.2.add itemTotal)
    | none => checkoutForEach env rest acc

/-- The command `handleCheckout(cart, userName)`. -/
def handleCheckout (env : Env) (cart : List CartLine) (userName : String) : Response :=
  if cart.length = 0 then { body := .cartEmpty }
  else
    let r := checkoutForEach env cart ([], .finite 0)
    { body := .checkout userName r.1 r.2,
      image := orElse env.settings.checkoutImage env.settings.defaultImage }

/-- The command `handleSearch(query)`. -/
def handleSearch (env : Env) (query : String) : Response :=
  let results := env.database.products.filter fun p =>
    includes (env.toLowerCase p.name) (env.toLowerCase query) ||
    includes (env.toLowerCase p.description) (env.toLowerCase query)
  if results.length = 0 then
    { body := .noResults query, success := some false }
  else
    { body := .searchResults query (numbered results),
      success := some true,
      results := some (results.map (·.id)) }

/-- The helper `calculateTotal(cart)` of `src/index.js` before its `toFixed(2)`. -/
def calculateTotal (env : Env) (cart : List CartLine) : Amount :=
  cart.foldl (fun total item =>
    total.add (match findProduct env item.item with
               | some product => lineTotal product.price item.quantity
               | none => .finite 0)) (.finite 0)

/-! ## Sessions (`src/utils.js`) and the message handler (`src/index.js`) -/

/-- The function `setupUserSession(jid)`: the stored record, or a fresh one when there is
none; `now` is `Date.now()`. -/
def setupUserSession (now : Int) (stored : Option Session) : Session :=
  match stored with
  | some userSession => userSession
  | none => { state := .initial, cart := [], lastInteraction := some now,
              lastState := some .initial }

/-- The condition of the returning-user branch:
`lastInteraction && Date.now() - lastInteraction > 3600000 && lastState !== 'initial'`
(a number is truthy when it is not 0). -/
def isIdle (now : Int) (userSession : Session) : Bool :=
  match userSession.lastInteraction with
  | some t => decide (t ≠ 0) && decide (now - t > 3600000) &&
      decide (userSession.lastState ≠ some .initial)
  | none => false

/-- The block `if (userSession.tempState === 'returning') { ... }`. -/
def resumeAnswer (env : Env) (userSession : Session) (messageContent : String) : Session :=
  if userSession.tempState = some "returning" then
    if messageContent = "1" ∨ env.toLowerCase messageContent = "continue" then
      { userSession with tempState := none }
    else
      { userSession with state := .initial, cart := [], tempState := none }
  else userSession

/-- Result of the `switch (userSession.state)`: the session as mutated and
then written by `JSON.stringify` (a quantity that was pushed as an infinity
is `null` in the file, while `handleCart` of the same turn renders the
infinity), the messages sent inside the `switch`, the `response` variable,
and whether the `setTimeout` callback of the confirmation was scheduled. -/
structure Dispatch where
  session : Session
  sent : List Response := []
  response : Option Response := none
  scheduled : Bool := false

/-- The `switch (userSession.state)` of the handler. -/
def dispatch (env : Env) (senderName : String) (userSession : Session)
    (messageContent : String) : Dispatch :=
  match userSession.state with
  | .initial =>
    { session := { userSession with state := .main_menu },
      response := some (handleMainMenu env senderName) }
  | .main_menu =>
    if env.toLowerCase messageContent = "search" then
      { session := { userSession with state := .searching },
        sent := [{ body := .searchPrompt }] }
    else
      let categoryResponse := handleCategorySelection env messageContent
      if categoryResponse.success = some true then
        { session := { userSession with state := .category_selected,
                                         currentCategory := categoryResponse.categoryName },
          response := some categoryResponse }
      else
        { session := userSession, response := some categoryResponse }
  | .searching =>
    { session := { userSession with state := .search_results },
      response := some (handleSearch env messageContent) }
  | .search_results | .category_selected =>
    let response := handleItemSelection env messageContent userSession.currentCategory
    if response.success = some true then
      { session := { userSession with state := .item_selected, currentItem := response.item },
        response := some response }
    else
      { session := userSession, response := some response }
  | .item_selected =>
    let fields := splitTrim messageContent
    let quantity := fields.get? 0
    let size := fields.get? 1
    let color := fields.get? 2
    if !truthy quantity || (parseInt (quantity.getD "")).isNone then
      { session := userSession, sent := [{ body := .quantityPrompt }] }
    else
      let number := env.toNumber ((parseInt (quantity.getD "")).getD 0)
      let cart := userSession.cart ++
        [{ item := userSession.currentItem,
           quantity := number,
           size := orDefault size "Standard",
           color := orDefault color "Default" }]
      let written := userSession.cart ++
        [{ item := userSession.currentItem,
           quantity := persistQuantity number,
           size := orDefault size "Standard",
           color := orDefault color "Default" }]
      { session := { userSession with cart := written, state := .cart },
        response := some (handleCart env cart) }
  | .cart =>
    if env.toLowerCase messageContent = "checkout" then
      { session := { userSession with state := .checkout },
        response := some (handleCheckout env userSession.cart senderName) }
    else if env.toLowerCase messageContent = "continue" then
      { session := { userSession with state := .main_menu },
        response := some (handleMainMenu env senderName) }
    else { session := userSession }
  | .checkout =>
    if env.toLowerCase messageContent = "confirm" then
      { session := { userSession with cart := [], state := .initial },
        sent := [{ body := .orderConfirmed senderName (calculateTotal env userSession.cart) }],
        scheduled := true }
    else if env.toLowerCase messageContent = "cancel" then
      { session := { userSession with state := .main_menu },
        sent := [{ body := .orderCanceled }],
        response := some (handleMainMenu env senderName) }
    else { session := userSession }
  | .other =>
    { session := { userSession with state := .main_menu },
      response := some (handleMainMenu env senderName) }

/-- What processing one message does: the messages sent, in order; the
session record in the store when the handler is done; and, when the
confirmation scheduled its callback, the record that the callback stores and
the menu it sends two seconds later. -/
structure Outcome where
  sent : List Response
  saved : Session
  deferred : Option (Session × Response) := none

/-- The body of the `messages.upsert` loop for one message: `userSession` is
the result of `setupUserSession`, `now` is `Date.now()`. -/
def handleMessage (env : Env) (now : Int) (senderName : String) (userSession : Session)
    (messageContent : String) : Outcome :=
  if env.toLowerCase messageContent = "menu" then
    { sent := [handleMainMenu env senderName],
      saved := { state := .main_menu, currentCategory := none, currentItem := none,
                 cart := [] } }
  else if isIdle now userSession then
    { sent := [{ body := .welcomeBack senderName }],
      saved := { userSession with tempState := some "returning" } }
  else
    let d := dispatch env senderName (resumeAnswer env userSession messageContent)
      messageContent
    let final : Session :=
      { d.session with lastInteraction := some now, lastState := some d.session.state }
    { sent := d.sent ++ d.response.toList,
      saved := final,
      deferred :=
        if d.scheduled then
          some ({ final with state := .main_menu }, handleMainMenu env senderName)
        else none }

/-- One message from receipt to the end of the handler: load or create the
session, then handle the message. -/
def processMessage (env : Env) (now : Int) (senderName : String) (stored : Option Session)
    (messageContent : String) : Outcome :=
  handleMessage env now senderName (setupUserSession now stored) messageContent

/-- The ASCII environment over a catalog: `toLowerCase` lowers A to Z only
and integers are rounded to the nearest double. -/
def asciiEnv (database : Database) (settings : Settings) : Env :=
  { database := database, settings := settings, toLowerCase := asciiLower,
    toLowerCase_ascii := fun _ _ => rfl,
    toNumber := roundToDouble,
    toNumber_safe := by
      intro n hn
      have hround : roundNat n.natAbs = some n.natAbs := by
        rcases Nat.lt_or_ge n.natAbs (2 ^ 53) with hlt | hge
        · unfold roundNat
          rw [if_pos hlt]
        · rw [Nat.le_antisymm hn hge]
          decide
      unfold roundToDouble
      rw [hround]
      show Quantity.finite _ = Quantity.finite n
      congr 1
      split <;> omega,
    toNumber_number := by
      intro n
      unfold roundToDouble
      cases roundNat n.natAbs with
      | none => exact fun h => Quantity.noConfusion h
      | some v => exact fun h => Quantity.noConfusion h }

/-! ## Specification-side notions and sample data -/

/-- The catalog product that an item id resolves to: the first product of the
catalog, in catalog order, whose id is the item. -/
def resolves (env : Env) (item : Option String) : Option Product :=
  (env.database.products.filter fun product => decide (some product.id = item)).head?

/-- Sum of `product.price * line.quantity` over the cart lines whose item
resolves to a catalog product, in cart order. -/
def resolvedSum (env : Env) (cart : List CartLine) : Amount :=
  (cart.filterMap fun line =>
    (resolves env line.item).map fun product => lineTotal product.price line.quantity).foldl
    Amount.add (.finite 0)

/-- The same sum as a rational number, for a cart without infinite
quantities: a line whose quantity is `null` adds 0. -/
def exactSum (env : Env) (cart : List CartLine) : ℚ :=
  (cart.filterMap fun line =>
    match line.quantity with
    | .finite n => (resolves env line.item).map fun product => product.price * (n : ℚ)
    | _ => none).sum

/-- The total shown by a cart view or a checkout summary, if the reply is one. -/
def shownTotal (response : Response) : Option Amount :=
  match response.body with
  | .cart _ total => some total
  | .checkout _ _ total => some total
  | _ => none

/-- Whether the lower-cased keyword is a contiguous part of the lower-cased
name or of the lower-cased description of the product. -/
def containsKeyword (env : Env) (keyword : String) (product : Product) : Bool :=
  decide ((env.toLowerCase keyword).data <:+: (env.toLowerCase product.name).data) ||
  decide ((env.toLowerCase keyword).data <:+: (env.toLowerCase product.description).data)

/-- The selection rule in words: `selection` converts to a number, `parseInt`
of it is `k` with `1 <= k <= n` and `x` is the `k`-th entry; or there is no
such `k` and `x` is the first entry whose lower-cased name is the lower-cased
selection. -/
def Selects {α : Type} (env : Env) (name : α → String) (xs : List α) (selection : String)
    (x : α) : Prop :=
  (∃ k : Nat, isNaN selection = false ∧ parseInt selection = some (k : Int) ∧ 1 ≤ k ∧
    k ≤ xs.length ∧ xs.get? (k - 1) = some x) ∨
  (¬ (isNaN selection = false ∧
      ∃ k : Nat, parseInt selection = some (k : Int) ∧ 1 ≤ k ∧ k ≤ xs.length) ∧
    xs.find? (fun y => env.toLowerCase (name y) == env.toLowerCase selection) = some x)

/-- The selection rule selects nothing: no index in range and no entry of
that name. -/
def SelectsNothing {α : Type} (env : Env) (name : α → String) (xs : List α)
    (selection : String) : Prop :=
  ¬ (isNaN selection = false ∧
      ∃ k : Nat, parseInt selection = some (k : Int) ∧ 1 ≤ k ∧ k ≤ xs.length) ∧
  xs.find? (fun y => env.toLowerCase (name y) == env.toLowerCase selection) = none

/-- The messages that empty the cart: the menu command; and, when the idle
rule does not fire, an answer other than `1` or `continue` to a pending resume
prompt, and `confirm` in state `checkout`. -/
def clearsCart (env : Env) (now : Int) (userSession : Session) (messageContent : String) :
    Prop :=
  env.toLowerCase messageContent = "menu" ∨
  (isIdle now userSession = false ∧
    ((userSession.tempState = some "returning" ∧ messageContent ≠ "1" ∧
        env.toLowerCase messageContent ≠ "continue") ∨
     (userSession.state = .checkout ∧ env.toLowerCase messageContent = "confirm")))

/-- A decimal numeral: one or more decimal digits and nothing else. -/
def isNumeral (q : String) : Bool := !q.data.isEmpty && q.data.all isDecDigit

/-- The number a decimal numeral denotes. -/
def numeralValue (q : String) : Nat := ofDigits 10 (q.data.map fun c => c.toNat - 48)

/-- A string that denotes an integer: after trimming, an optional sign
followed by a decimal numeral. Its value is `parseInt` of it. -/
def isIntegerString (selection : String) : Bool :=
  isNumeral ⟨(stripSign (trimChars selection.data)).2⟩

/-- The record stored once the handler and, if it was scheduled, the
callback of the confirmation are done. -/
def storeAfter (o : Outcome) : Session :=
  match o.deferred with
  | some (userSession, _) => userSession
  | none => o.saved

/-- The store of one user after a sequence of messages, each given with its
arrival time and processed after the previous one is completely done. -/
def run (env : Env) (senderName : String) : Option Session → List (Int × String) → Option Session
  | stored, [] => stored
  | stored, (now, messageContent) :: rest =>
    run env senderName
      (some (storeAfter (processMessage env now senderName stored messageContent))) rest

/-- A sample product. -/
def demoTee : Product :=
  { id := "1_1", name := "Tee", price := 10, description := "cotton shirt", category := 1 }

/-- A catalog of two categories and three products. -/
def demoDatabase : Database :=
  { categories := [{ id := 1, name := "Shirts" }, { id := 2, name := "Shoes" }],
    products :=
      [demoTee,
       { id := "1_2", name := "Polo", price := 12, category := 1 },
       { id := "2_1", name := "Boot", price := 40, description := "leather", category := 2 }] }

/-- A catalog whose second category, `Hats`, has no product. -/
def demoSparseDatabase : Database :=
  { categories := [{ id := 1, name := "Shirts" }, { id := 3, name := "Hats" }],
    products := [demoTee] }

/-- The catalog with an empty category, with ASCII lower-casing. -/
def demoSparseEnv : Env := asciiEnv demoSparseDatabase {}

/-- The sample catalog with ASCII lower-casing. -/
def demoEnv : Env := asciiEnv demoDatabase {}

/-- A cart of two `1_1`, five of an item that is in no catalog, and one
`2_1`. -/
def demoMixedCart : List CartLine :=
  [{ item := some "1_1", quantity := 2, size := "L", color := "blue" },
   { item := some "9_9", quantity := 5, size := "M", color := "red" },
   { item := some "2_1", quantity := 1, size := "42", color := "black" }]

/-- A session with one line in the cart, last used at time 1000. -/
def demoSession : Session :=
  { state := .cart,
    cart := [{ item := some "1_1", quantity := 2, size := "L", color := "blue" }],
    lastInteraction := some 1000, lastState := some .cart,
    currentCategory := some "Shirts", currentItem := some "1_1" }

/-- A session configuring the product `1_1`, last used at time 1000. -/
def demoItemSession : Session :=
  { state := .item_selected,
    cart := [{ item := some "2_1", quantity := 1, size := "42", color := "black" }],
    lastInteraction := some 1000, lastState := some .item_selected,
    currentCategory := some "Shirts", currentItem := some "1_1" }

/-! ## Theorems -/

/-! ### Auxiliary lemmas -/

/-- A decimal digit is not white space. -/
theorem isWhiteSpace_of_digit {c : Char} (h : isDecDigit c = true) : isWhiteSpace c = false := by
  simp only [isDecDigit, decide_eq_true_eq] at h
  simp only [isWhiteSpace, Bool.or_eq_false_iff, beq_eq_false_iff_ne, Bool.and_eq_false_iff, decide_eq_false_iff_not, ne_eq]
  omega

/-- A decimal digit is a digit of radix 10, with its usual value. -/
theorem radixDigit_of_digit {c : Char} (h : isDecDigit c = true) :
    radixDigit 10 c = some (c.toNat - 48) := by
  simp only [isDecDigit, decide_eq_true_eq] at h
  simp only [radixDigit, digitVal, h, and_self, if_true]
  have : c.toNat - 48 < 10 := by omega
  simp [this]

/-- On a list of decimal digits `takeDigits` keeps every character. -/
theorem takeDigits_of_digits (cs : List Char) (h : cs.all isDecDigit = true) :
    takeDigits 10 cs = cs.map fun c => c.toNat - 48 := by
  induction cs with
  | nil => rfl
  | cons c cs ih =>
    simp only [List.all_cons, Bool.and_eq_true] at h
    simp [takeDigits, radixDigit_of_digit h.1, ih h.2]

/-- Equal characters have equal code points. -/
theorem toNat_of_eq {c d : Char} (h : c = d) : c.toNat = d.toNat := by rw [h]

/-- A list that starts with a digit carries no sign. -/
theorem stripSign_of_digit {c : Char} (cs : List Char) (h : isDecDigit c = true) :
    stripSign (c :: cs) = (false, c :: cs) := by
  simp only [isDecDigit, decide_eq_true_eq] at h
  unfold stripSign
  split
  · next heq =>
    have := toNat_of_eq (List.cons.inj heq).1
    simp at this; omega
  · next heq =>
    have := toNat_of_eq (List.cons.inj heq).1
    simp at this; omega
  · rfl

/-- A list of decimal digits carries no `0x` marker. -/
theorem stripRadix_of_digits {c : Char} (cs : List Char) (h : (c :: cs).all isDecDigit = true) :
    stripRadix (c :: cs) = (10, c :: cs) := by
  simp only [List.all_cons, Bool.and_eq_true] at h
  unfold stripRadix
  split
  · next heq =>
    obtain ⟨-, rfl⟩ := List.cons.inj heq
    simp [isDecDigit] at h
  · next heq =>
    obtain ⟨-, rfl⟩ := List.cons.inj heq
    simp [isDecDigit] at h
  · rfl

/-- On a decimal numeral `parseInt` returns the number it denotes. -/
theorem parseInt_of_numeral (q : String) (h : isNumeral q = true) :
    parseInt q = some (numeralValue q : Int) := by
  obtain ⟨cs⟩ := q
  cases cs with
  | nil => simp [isNumeral] at h
  | cons c cs =>
    simp only [isNumeral, List.isEmpty_cons, Bool.not_false, Bool.true_and] at h
    have hc : isDecDigit c = true := by
      simp only [List.all_cons, Bool.and_eq_true] at h; exact h.1
    have h1 : List.dropWhile isWhiteSpace (c :: cs) = c :: cs := by
      simp [List.dropWhile_cons, isWhiteSpace_of_digit hc]
    unfold parseInt numeralValue
    simp only [h1, stripSign_of_digit cs hc, stripRadix_of_digits cs h, takeDigits_of_digits _ h]
    simp
/-- When the text is not the menu command and the idle rule does not fire,
the handler is the resume block, the dispatch and the final update. -/
theorem handleMessage_of_dispatch (env : Env) (now : Int) (senderName : String)
    (userSession : Session) (messageContent : String)
    (hmenu : env.toLowerCase messageContent ≠ "menu")
    (hidle : isIdle now userSession = false) :
    handleMessage env now senderName userSession messageContent =
      { sent := (dispatch env senderName (resumeAnswer env userSession messageContent)
                  messageContent).sent ++
                (dispatch env senderName (resumeAnswer env userSession messageContent)
                  messageContent).response.toList,
        saved :=
          { (dispatch env senderName (resumeAnswer env userSession messageContent)
              messageContent).session with
            lastInteraction := some now,
            lastState := some (dispatch env senderName
              (resumeAnswer env userSession messageContent) messageContent).session.state },
        deferred :=
          if (dispatch env senderName (resumeAnswer env userSession messageContent)
              messageContent).scheduled then
            some ({ (dispatch env senderName (resumeAnswer env userSession messageContent)
                      messageContent).session with
                    lastInteraction := some now,
                    lastState := some (dispatch env senderName
                      (resumeAnswer env userSession messageContent) messageContent).session.state,
                    state := .main_menu }, handleMainMenu env senderName)
          else none } := by
  simp [handleMessage, hmenu, hidle]

/-- The resume block leaves a session without a pending prompt alone. -/
theorem resumeAnswer_of_not_returning (env : Env) (userSession : Session)
    (messageContent : String) (htemp : userSession.tempState ≠ some "returning") :
    resumeAnswer env userSession messageContent = userSession := by
  simp [resumeAnswer, htemp]

/-- The number kept for an integer of at most 2^53 in absolute value is
written to the session file as that integer. -/
theorem persistQuantity_toNumber_safe (env : Env) (k : Int) (hk : k.natAbs ≤ 2 ^ 53) :
    persistQuantity (env.toNumber k) = .finite k := by
  rw [env.toNumber_safe k hk]
  rfl

/-- What is written to the session file is a number or `null`. -/
theorem persistQuantity_ne_infinity (q : Quantity) (negative : Bool) :
    persistQuantity q ≠ .infinity negative := by
  cases q <;> simp [persistQuantity]

/-- The `item_selected` case when the first field is non-empty and
`parseInt` of it is a number. -/
theorem dispatch_item_selected_accept (env : Env) (senderName : String)
    (userSession : Session) (messageContent : String) (q : String) (rest : List String)
    (k : Int)
    (hstate : userSession.state = .item_selected)
    (hfields : splitTrim messageContent = q :: rest)
    (hq : q ≠ "") (hk : parseInt q = some k) :
    dispatch env senderName userSession messageContent =
      { session := { userSession with
          cart := userSession.cart ++
            [{ item := userSession.currentItem,
               quantity := persistQuantity (env.toNumber k),
               size := orDefault (rest.get? 0) "Standard",
               color := orDefault (rest.get? 1) "Default" }],
          state := .cart },
        response := some (handleCart env (userSession.cart ++
            [{ item := userSession.currentItem, quantity := env.toNumber k,
               size := orDefault (rest.get? 0) "Standard",
               color := orDefault (rest.get? 1) "Default" }])) } := by
  have ht : truthy (some q) = true := by
    obtain ⟨cs⟩ := q
    cases cs with
    | nil => exact absurd rfl hq
    | cons c cs => rfl
  unfold dispatch
  simp [hstate, hfields, ht, hk]

/-- The lookup of the code finds the first catalog product with the id. -/
theorem findProduct_eq_resolves (env : Env) (item : Option String) :
    findProduct env item = resolves env item := by
  unfold findProduct resolves
  induction env.database.products with
  | nil => rfl
  | cons p ps ih =>
    by_cases h : some p.id = item
    · simp [List.find?_cons, List.filter_cons, h]
    · simp [List.find?_cons, List.filter_cons, h, ih]

/-- An item that is the id of no catalog product resolves to nothing. -/
theorem resolves_eq_none (env : Env) (item : Option String)
    (h : ∀ p ∈ env.database.products, some p.id ≠ item) : resolves env item = none := by
  unfold resolves
  have : env.database.products.filter (fun product => decide (some product.id = item)) = [] := by
    rw [List.filter_eq_nil_iff]
    intro p hp
    simpa using h p hp
  rw [this]
  rfl

/-- Adding the amount 0 changes nothing. -/
theorem Amount.add_zero (a : Amount) : a.add (.finite 0) = a := by
  cases a <;> simp [Amount.add]

/-- The sum over a cart with one more line in front. -/
theorem foldl_lineTotals_cons (env : Env) (line : CartLine) (cart : List CartLine)
    (start : Amount) :
    ((line :: cart).filterMap fun l =>
        (resolves env l.item).map fun product => lineTotal product.price l.quantity).foldl
        Amount.add start =
      (cart.filterMap fun l =>
        (resolves env l.item).map fun product => lineTotal product.price l.quantity).foldl
        Amount.add
        (start.add (match resolves env line.item with
          | some product => lineTotal product.price line.quantity
          | none => .finite 0)) := by
  cases h : resolves env line.item with
  | none => simp [List.filterMap_cons, h, Amount.add_zero]
  | some product => simp [List.filterMap_cons, h]

/-- The fold of `calculateTotal` from any starting value. -/
theorem calculateTotal_foldl (env : Env) (cart : List CartLine) (start : Amount) :
    cart.foldl (fun total item =>
      total.add (match findProduct env item.item with
                 | some product => lineTotal product.price item.quantity
                 | none => .finite 0)) start =
    (cart.filterMap fun l =>
      (resolves env l.item).map fun product => lineTotal product.price l.quantity).foldl
      Amount.add start := by
  induction cart generalizing start with
  | nil => rfl
  | cons line cart ih =>
    rw [List.foldl_cons, ih, foldl_lineTotals_cons, findProduct_eq_resolves]

/-- The running total of the loop of `handleCart`. -/
theorem cartForEach_total (env : Env) (cart : List CartLine) (index : Nat)
    (acc : List CartRow × Amount) :
    (cartForEach env index cart acc).2 =
      (cart.filterMap fun l =>
        (resolves env l.item).map fun product => lineTotal product.price l.quantity).foldl
        Amount.add acc.2 := by
  induction cart generalizing index acc with
  | nil => rfl
  | cons line cart ih =>
    rw [foldl_lineTotals_cons, ← findProduct_eq_resolves]
    unfold cartForEach
    cases h : findProduct env line.item with
    | none => simp [ih, Amount.add_zero]
    | some product => simp [ih]

/-- The running total of the loop of `handleCheckout`. -/
theorem checkoutForEach_total (env : Env) (cart : List CartLine)
    (acc : List CheckoutRow × Amount) :
    (checkoutForEach env cart acc).2 =
      (cart.filterMap fun l =>
        (resolves env l.item).map fun product => lineTotal product.price l.quantity).foldl
        Amount.add acc.2 := by
  induction cart generalizing acc with
  | nil => rfl
  | cons line cart ih =>
    rw [foldl_lineTotals_cons, ← findProduct_eq_resolves]
    unfold checkoutForEach
    cases h : findProduct env line.item with
    | none => simp [ih, Amount.add_zero]
    | some product => simp [ih]

/-- The total of `calculateTotal` is the sum over the lines that resolve. -/
theorem calculateTotal_eq_resolvedSum (env : Env) (cart : List CartLine) :
    calculateTotal env cart = resolvedSum env cart := by
  unfold calculateTotal resolvedSum
  exact calculateTotal_foldl env cart (.finite 0)

/-- The value of `calculateTotal` on a cart with one more line at the end. -/
theorem calculateTotal_append (env : Env) (cart : List CartLine) (line : CartLine) :
    calculateTotal env (cart ++ [line]) =
      (calculateTotal env cart).add
        (match resolves env line.item with
         | some product => lineTotal product.price line.quantity
         | none => .finite 0) := by
  simp [calculateTotal, List.foldl_append, findProduct_eq_resolves]

/-- Without infinite quantities the sum from a finite start is finite. -/
theorem foldl_lineTotals_finite (env : Env) (cart : List CartLine) (start : ℚ)
    (h : ∀ line ∈ cart, ∀ negative, line.quantity ≠ .infinity negative) :
    (cart.filterMap fun l =>
      (resolves env l.item).map fun product => lineTotal product.price l.quantity).foldl
      Amount.add (.finite start) = .finite (start + exactSum env cart) := by
  induction cart generalizing start with
  | nil => simp [exactSum]
  | cons line cart ih =>
    have hrest : ∀ l ∈ cart, ∀ negative, l.quantity ≠ .infinity negative :=
      fun l hl => h l (List.mem_cons_of_mem _ hl)
    have hline := h line (List.mem_cons_self _ _)
    rw [foldl_lineTotals_cons]
    cases hr : resolves env line.item with
    | none =>
      have hex : exactSum env (line :: cart) = exactSum env cart := by
        unfold exactSum
        cases hqty : line.quantity <;> simp [List.filterMap_cons, hr, hqty]
      rw [hex]
      simpa [Amount.add] using ih start hrest
    | some product =>
      cases hqty : line.quantity with
      | infinity negative => exact absurd hqty (hline negative)
      | null =>
        have hex : exactSum env (line :: cart) = exactSum env cart := by
          unfold exactSum
          simp [List.filterMap_cons, hqty]
        rw [hex]
        simpa [Amount.add, lineTotal] using ih start hrest
      | finite n =>
        have hex : exactSum env (line :: cart) =
            product.price * (n : ℚ) + exactSum env cart := by
          unfold exactSum
          simp [List.filterMap_cons, hr, hqty]
        rw [hex]
        have hstep := ih (start + product.price * (n : ℚ)) hrest
        show List.foldl Amount.add (Amount.finite (start + product.price * (n : ℚ))) _ = _
        rw [hstep]
        congr 1
        ring

/-- The value of `a || literal` for a string `a`. -/
theorem orDefault_some (sz literal : String) :
    orDefault (some sz) literal = if sz = "" then literal else sz := by
  obtain ⟨cs⟩ := sz
  cases cs with
  | nil => simp [orDefault]
  | cons c cs => 
    have : (⟨c :: cs⟩ : String) ≠ "" := fun h => by
      have := congrArg String.data h
      simp at this
    simp [orDefault, this]

/-- The selection when the string converts to a number and `parseInt` of it
is an index in range. -/
theorem selectEntry_index {α : Type} (env : Env) (name : α → String) (xs : List α)
    (selection : String) (k : Nat) (hnum : isNaN selection = false)
    (hk : parseInt selection = some (k : Int)) (h1 : 1 ≤ k) (h2 : k ≤ xs.length) :
    selectEntry env name xs selection = xs.get? (k - 1) := by
  have hcond : 0 ≤ (k : Int) - 1 ∧ (k : Int) - 1 < (xs.length : Int) := by omega
  have hnat : ((k : Int) - 1).toNat = k - 1 := by omega
  simp [selectEntry, selectionNum, hnum, hk, hcond, hnat]

/-- The selection in every other case. -/
theorem selectEntry_name {α : Type} (env : Env) (name : α → String) (xs : List α)
    (selection : String)
    (h : ¬ (isNaN selection = false ∧
      ∃ k : Nat, parseInt selection = some (k : Int) ∧ 1 ≤ k ∧ k ≤ xs.length)) :
    selectEntry env name xs selection =
      xs.find? fun x => env.toLowerCase (name x) == env.toLowerCase selection := by
  unfold selectEntry selectionNum findByName
  cases hnum : isNaN selection with
  | true => simp
  | false =>
    cases hp : parseInt selection with
    | none => simp
    | some j =>
      have hcond : ¬ (0 ≤ j - 1 ∧ j - 1 < (xs.length : Int)) := by
        intro hc
        apply h
        refine ⟨hnum, j.toNat, ?_, ?_, ?_⟩
        · rw [hp]
          congr 1
          omega
        · omega
        · omega
      simp only [Bool.false_eq_true, if_false, Option.map_some', hcond]

/-- The test `startsWithChars` decides the prefix relation. -/
theorem startsWithChars_iff (needle hay : List Char) :
    startsWithChars needle hay = true ↔ needle <+: hay := by
  induction needle generalizing hay with
  | nil => simp [startsWithChars]
  | cons a as ih =>
    cases hay with
    | nil => simp [startsWithChars]
    | cons b bs =>
      simp only [startsWithChars, Bool.and_eq_true, beq_iff_eq, ih]
      constructor
      · rintro ⟨rfl, h⟩
        exact (List.prefix_cons_inj a).2 h
      · intro h
        have hab : a = b := by
          obtain ⟨t, ht⟩ := h
          simp at ht
          exact ht.1
        subst hab
        exact ⟨rfl, (List.prefix_cons_inj a).1 h⟩

/-- The test `includesChars` decides the contiguous-sublist relation. -/
theorem includesChars_iff (needle hay : List Char) :
    includesChars needle hay = true ↔ needle <:+: hay := by
  induction hay with
  | nil => simp [includesChars]
  | cons c cs ih =>
    simp only [includesChars, Bool.or_eq_true, startsWithChars_iff, ih, List.infix_cons_iff]

/-- The `i`-th numbered entry is the `i`-th entry with the number `i + 1`. -/
theorem numbered_get? {α : Type} (xs : List α) (i : Nat) :
    (numbered xs).get? i = (xs.get? i).map fun x => (i + 1, x) := by
  simp [numbered, List.get?_eq_getElem?, List.getElem?_enum]
  cases xs[i]? <;> rfl

/-- The filter of `handleSearch` keeps the products that contain the keyword. -/
theorem handleSearch_filter (env : Env) (query : String) :
    (env.database.products.filter fun p =>
      includes (env.toLowerCase p.name) (env.toLowerCase query) ||
      includes (env.toLowerCase p.description) (env.toLowerCase query)) =
    env.database.products.filter (containsKeyword env query) := by
  congr 1
  funext p
  rw [Bool.eq_iff_iff]
  simp [containsKeyword, includes, includesChars_iff]

/-- The selection of the code returns an entry exactly when the rule in
words selects it. -/
theorem selectEntry_eq_some_iff {α : Type} (env : Env) (name : α → String) (xs : List α)
    (selection : String) (x : α) :
    selectEntry env name xs selection = some x ↔ Selects env name xs selection x := by
  by_cases h : isNaN selection = false ∧
      ∃ k : Nat, parseInt selection = some (k : Int) ∧ 1 ≤ k ∧ k ≤ xs.length
  · obtain ⟨hnum, k, hk, h1, h2⟩ := h
    rw [selectEntry_index env name xs selection k hnum hk h1 h2]
    constructor
    · intro hx
      exact Or.inl ⟨k, hnum, hk, h1, h2, hx⟩
    · rintro (⟨j, -, hj, -, -, hx⟩ | ⟨hno, -⟩)
      · have hjk : j = k := by
          rw [hk] at hj
          have := Option.some.inj hj
          omega
        rw [← hjk]
        exact hx
      · exact absurd ⟨hnum, k, hk, h1, h2⟩ hno
  · rw [selectEntry_name env name xs selection h]
    constructor
    · intro hx
      exact Or.inr ⟨h, hx⟩
    · rintro (⟨j, hnum, hj, h1, h2, -⟩ | ⟨-, hx⟩)
      · exact absurd ⟨hnum, j, hj, h1, h2⟩ h
      · exact hx

/-- The selection of the code returns nothing exactly when the rule in words
selects nothing. -/
theorem selectEntry_eq_none_iff {α : Type} (env : Env) (name : α → String) (xs : List α)
    (selection : String) :
    selectEntry env name xs selection = none ↔ SelectsNothing env name xs selection := by
  by_cases h : isNaN selection = false ∧
      ∃ k : Nat, parseInt selection = some (k : Int) ∧ 1 ≤ k ∧ k ≤ xs.length
  · obtain ⟨hnum, k, hk, h1, h2⟩ := h
    rw [selectEntry_index env name xs selection k hnum hk h1 h2]
    have hlt : k - 1 < xs.length := by omega
    rw [List.get?_eq_get hlt]
    constructor
    · intro hx
      exact absurd hx (by simp)
    · rintro ⟨hno, -⟩
      exact absurd ⟨hnum, k, hk, h1, h2⟩ hno
  · rw [selectEntry_name env name xs selection h]
    constructor
    · intro hx
      exact ⟨h, hx⟩
    · rintro ⟨-, hx⟩
      exact hx

/-- The cart after the `switch` is the cart before it, or the cart before it
with one line appended, unless the `switch` handles `confirm` in state
`checkout`. -/
theorem dispatch_cart (env : Env) (senderName : String) (userSession : Session)
    (messageContent : String)
    (hconfirm : ¬ (userSession.state = .checkout ∧
      env.toLowerCase messageContent = "confirm")) :
    (dispatch env senderName userSession messageContent).session.cart = userSession.cart ∨
    ∃ line, (dispatch env senderName userSession messageContent).session.cart =
      userSession.cart ++ [line] := by
  unfold dispatch
  cases hs : userSession.state with
  | checkout =>
    have hc : env.toLowerCase messageContent ≠ "confirm" := fun h => hconfirm ⟨hs, h⟩
    left
    simp only [hc, if_false]
    split <;> rfl
  | item_selected =>
    dsimp only
    split
    · left; rfl
    · right; exact ⟨_, rfl⟩
  | main_menu =>
    left
    dsimp only
    split
    · rfl
    · split <;> rfl
  | search_results =>
    left
    dsimp only
    split <;> rfl
  | category_selected =>
    left
    dsimp only
    split <;> rfl
  | cart =>
    left
    dsimp only
    split
    · rfl
    · split <;> rfl
  | initial => left; rfl
  | searching => left; rfl
  | other => left; rfl

/-- The idle rule keeps firing at later times on a session that only got a
pending resume prompt. -/
theorem isIdle_returning_later (now later : Int) (userSession : Session)
    (hidle : isIdle now userSession = true) (hlater : now ≤ later) :
    isIdle later { userSession with tempState := some "returning" } = true := by
  unfold isIdle at hidle ⊢
  cases h : userSession.lastInteraction with
  | none => simp [h] at hidle
  | some t =>
    simp only [h, Bool.and_eq_true, decide_eq_true_eq] at hidle ⊢
    obtain ⟨⟨h0, hgt⟩, hst⟩ := hidle
    exact ⟨⟨h0, by omega⟩, hst⟩

/-- The handler on an idle session and a text that is not the menu command. -/
theorem handleMessage_of_idle (env : Env) (now : Int) (senderName : String)
    (userSession : Session) (messageContent : String)
    (hmenu : env.toLowerCase messageContent ≠ "menu")
    (hidle : isIdle now userSession = true) :
    handleMessage env now senderName userSession messageContent =
      { sent := [{ body := .welcomeBack senderName }],
        saved := { userSession with tempState := some "returning" } } := by
  simp [handleMessage, hmenu, hidle]

/-- A sequence of later messages, none of them the menu command, leaves the
store of a session with a pending resume prompt as it is. -/
theorem run_returning (env : Env) (senderName : String) (now : Int) (userSession : Session)
    (hidle : isIdle now userSession = true) (messages : List (Int × String))
    (hall : ∀ m ∈ messages, now ≤ m.1 ∧ env.toLowerCase m.2 ≠ "menu") :
    run env senderName (some { userSession with tempState := some "returning" }) messages =
      some { userSession with tempState := some "returning" } := by
  induction messages with
  | nil => rfl
  | cons m rest ih =>
    obtain ⟨later, answer⟩ := m
    have hm := hall (later, answer) (List.mem_cons_self _ _)
    have hi := isIdle_returning_later now later userSession hidle hm.1
    have hstep : handleMessage env later senderName
        { userSession with tempState := some "returning" } answer =
        { sent := [{ body := .welcomeBack senderName }],
          saved := { userSession with tempState := some "returning" } } :=
      handleMessage_of_idle env later senderName _ answer hm.2 hi
    simp only [run, processMessage, setupUserSession, hstep, storeAfter]
    exact ih fun m' hm' => hall m' (List.mem_cons_of_mem _ hm')

/-- On ASCII text without capital letters `toLowerCase` changes nothing. -/
theorem toLowerCase_fixed (env : Env) (s : String) (hascii : isAscii s = true)
    (hlower : asciiLower s = s) : env.toLowerCase s = s := by
  rw [env.toLowerCase_ascii s hascii, hlower]

/-! ### The claims -/

/-- C1: whatever the stored session, a message whose lower-cased text is
`menu` stores a session with state `main_menu`, an empty cart and no current
category or item, and the only reply is the main menu built by
`handleMainMenu`, which lists the categories whenever the catalog has one. -/
theorem menu_command_resets (env : Env) (now : Int) (senderName : String)
    (userSession : Session) (messageContent : String)
    (hmenu : env.toLowerCase messageContent = "menu") :
    (handleMessage env now senderName userSession messageContent).saved.state = .main_menu ∧
    (handleMessage env now senderName userSession messageContent).saved.cart = [] ∧
    (handleMessage env now senderName userSession messageContent).saved.currentCategory = none ∧
    (handleMessage env now senderName userSession messageContent).saved.currentItem = none ∧
    (handleMessage env now senderName userSession messageContent).sent =
      [handleMainMenu env senderName] ∧
    (handleMessage env now senderName userSession messageContent).deferred = none ∧
    (env.database.categories ≠ [] →
      (handleMainMenu env senderName).body = .menu senderName (categoryNames env)) := by
  refine ⟨?_, ?_, ?_, ?_, ?_, ?_, ?_⟩
  all_goals try simp [handleMessage, hmenu]
  intro hne
  unfold handleMainMenu
  split
  · rfl
  · split
    · exact absurd (by assumption) hne
    · rfl

/-- Witness of C1 on the sample session, in state `cart`, for the text `MeNu`. -/
theorem menu_command_resets_witness :
    (handleMessage demoEnv 5000 "Ann" demoSession "MeNu").saved.state = .main_menu ∧
    (handleMessage demoEnv 5000 "Ann" demoSession "MeNu").saved.cart = [] ∧
    (handleMessage demoEnv 5000 "Ann" demoSession "MeNu").saved.currentCategory = none ∧
    (handleMessage demoEnv 5000 "Ann" demoSession "MeNu").saved.currentItem = none ∧
    (handleMessage demoEnv 5000 "Ann" demoSession "MeNu").sent =
      [handleMainMenu demoEnv "Ann"] ∧
    (handleMessage demoEnv 5000 "Ann" demoSession "MeNu").deferred = none ∧
    (demoEnv.database.categories ≠ [] →
      (handleMainMenu demoEnv "Ann").body = .menu "Ann" (categoryNames demoEnv)) :=
  menu_command_resets demoEnv 5000 "Ann" demoSession "MeNu" (by decide)

/-- C2, as stated, fails: the session is in state `item_selected`, its current
item resolves to a product with a positive price and the input is `2,L,blue`,
but more than an hour has passed since the last interaction, so the handler
only sends the resume prompt: the cart and the state are unchanged. And when
the handler does append a line, the quantity is the double that `parseInt`
returns: on a host that rounds to the nearest double, the positive integer
`9007199254740993` is stored as 9007199254740992. -/
theorem add_line_counterexample :
    demoItemSession.state = .item_selected ∧
    (∃ p, resolves demoEnv demoItemSession.currentItem = some p ∧ 0 < p.price) ∧
    splitTrim "2,L,blue" = ["2", "L", "blue"] ∧
    (handleMessage demoEnv 3700000 "Ann" demoItemSession "2,L,blue").saved.cart =
      demoItemSession.cart ∧
    (handleMessage demoEnv 3700000 "Ann" demoItemSession "2,L,blue").saved.state =
      .item_selected ∧
    (handleMessage demoEnv 3700000 "Ann" demoItemSession "2,L,blue").sent =
      [{ body := .welcomeBack "Ann" }] ∧
    (handleMessage demoEnv 5000 "Ann" demoItemSession "9007199254740993,L,blue").saved.cart =
      demoItemSession.cart ++
        [{ item := some "1_1", quantity := .finite 9007199254740992, size := "L",
           color := "blue" }] := by
  refine ⟨rfl, ⟨demoTee, by decide, by norm_num [demoTee]⟩,
    by decide, by decide, by decide, by decide, by decide⟩

/-- C2, amended: in state `item_selected`, when the text is not the menu
command, the idle rule does not fire and no resume prompt is pending, an
input whose first trimmed field is the decimal numeral of `n` with
`0 < n <= 2^53` appends exactly one line to the cart: the current item,
quantity `n`, the second field as size (`Standard` when missing or empty) and
the third as color (`Default` when missing or empty). The new state is
`cart`. When the current item resolves to the catalog product `p`,
`calculateTotal` of the new cart is that of the old cart plus `p.price * n`;
the old total is a finite amount when the old cart holds no infinite
quantity, as every cart read from the session file, and then the new total is
strictly larger when the price is positive. -/
theorem item_selected_appends_line (env : Env) (now : Int) (senderName : String)
    (userSession : Session) (messageContent : String) (q : String) (rest : List String)
    (n : Nat) (p : Product)
    (hstate : userSession.state = .item_selected)
    (hmenu : env.toLowerCase messageContent ≠ "menu")
    (hidle : isIdle now userSession = false)
    (htemp : userSession.tempState ≠ some "returning")
    (hfields : splitTrim messageContent = q :: rest)
    (hq : isNumeral q = true) (hn : numeralValue q = n) (hpos : 0 < n)
    (hsafe : n ≤ 2 ^ 53)
    (hitem : resolves env userSession.currentItem = some p)
    (hprice : 0 < p.price) :
    (handleMessage env now senderName userSession messageContent).saved.cart =
      userSession.cart ++
        [{ item := userSession.currentItem,
           quantity := .finite (n : Int),
           size := (match rest.get? 0 with
                    | some size => if size = "" then "Standard" else size
                    | none => "Standard"),
           color := (match rest.get? 1 with
                     | some color => if color = "" then "Default" else color
                     | none => "Default") }] ∧
    (handleMessage env now senderName userSession messageContent).saved.state = .cart ∧
    calculateTotal env
        (handleMessage env now senderName userSession messageContent).saved.cart =
      (calculateTotal env userSession.cart).add (.finite (p.price * (n : ℚ))) ∧
    ((∀ line ∈ userSession.cart, ∀ negative, line.quantity ≠ .infinity negative) →
      calculateTotal env userSession.cart = .finite (exactSum env userSession.cart)) ∧
    (∀ t : ℚ, calculateTotal env userSession.cart = .finite t →
      calculateTotal env
          (handleMessage env now senderName userSession messageContent).saved.cart =
        .finite (t + p.price * (n : ℚ)) ∧
      t < t + p.price * (n : ℚ)) := by
  have hne : q ≠ "" := by
    intro h
    rw [h] at hq
    exact absurd hq (by decide)
  have hparse : parseInt q = some (n : Int) := by
    rw [parseInt_of_numeral q hq, hn]
  have hnum : persistQuantity (env.toNumber (n : Int)) = .finite (n : Int) :=
    persistQuantity_toNumber_safe env (n : Int) (by simpa using hsafe)
  have hsize : orDefault (rest.get? 0) "Standard" =
      (match rest.get? 0 with
       | some size => if size = "" then "Standard" else size
       | none => "Standard") := by
    cases rest.get? 0 with
    | none => rfl
    | some sz => exact orDefault_some sz "Standard"
  have hcolor : orDefault (rest.get? 1) "Default" =
      (match rest.get? 1 with
       | some color => if color = "" then "Default" else color
       | none => "Default") := by
    cases rest.get? 1 with
    | none => rfl
    | some c => exact orDefault_some c "Default"
  have hcart : (handleMessage env now senderName userSession messageContent).saved.cart =
      userSession.cart ++
        [{ item := userSession.currentItem, quantity := .finite (n : Int),
           size := orDefault (rest.get? 0) "Standard",
           color := orDefault (rest.get? 1) "Default" }] := by
    rw [handleMessage_of_dispatch env now senderName userSession messageContent hmenu hidle,
      resumeAnswer_of_not_returning env userSession messageContent htemp,
      dispatch_item_selected_accept env senderName userSession messageContent q rest n
        hstate hfields hne hparse, hnum]
  have hst : (handleMessage env now senderName userSession messageContent).saved.state =
      .cart := by
    rw [handleMessage_of_dispatch env now senderName userSession messageContent hmenu hidle,
      resumeAnswer_of_not_returning env userSession messageContent htemp,
      dispatch_item_selected_accept env senderName userSession messageContent q rest n
        hstate hfields hne hparse]
  have htotal : calculateTotal env
        (handleMessage env now senderName userSession messageContent).saved.cart =
      (calculateTotal env userSession.cart).add (.finite (p.price * (n : ℚ))) := by
    rw [hcart, calculateTotal_append]
    simp [hitem, lineTotal]
  have hn0 : (0 : ℚ) < (n : ℚ) := by exact_mod_cast hpos
  refine ⟨?_, hst, htotal, ?_, ?_⟩
  · rw [hcart, hsize, hcolor]
  · intro hstored
    rw [calculateTotal_eq_resolvedSum]
    unfold resolvedSum
    rw [foldl_lineTotals_finite env userSession.cart 0 hstored]
    simp
  · intro t ht
    rw [htotal, ht]
    refine ⟨rfl, ?_⟩
    have := mul_pos hprice hn0
    linarith

/-- Witness of the amended C2: the sample session, last used 4 seconds
before, receives `2,L,blue` for the product `1_1` of price 10; its cart held
one line, of total 40. -/
theorem item_selected_appends_line_witness :
    (handleMessage demoEnv 5000 "Ann" demoItemSession "2,L,blue").saved.cart =
      demoItemSession.cart ++
        [{ item := some "1_1", quantity := 2, size := "L", color := "blue" }] ∧
    (handleMessage demoEnv 5000 "Ann" demoItemSession "2,L,blue").saved.state = .cart ∧
    calculateTotal demoEnv demoItemSession.cart = .finite 40 ∧
    calculateTotal demoEnv
        (handleMessage demoEnv 5000 "Ann" demoItemSession "2,L,blue").saved.cart =
      .finite (40 + demoTee.price * ((2 : Nat) : ℚ)) ∧
    (40 : ℚ) < 40 + demoTee.price * ((2 : Nat) : ℚ) :=
  have h := item_selected_appends_line demoEnv 5000 "Ann" demoItemSession "2,L,blue" "2"
    ["L", "blue"] 2 demoTee rfl (by decide) (by decide) (by decide) (by decide) (by decide)
    (by decide) (by decide) (by decide) (by decide) (by norm_num [demoTee])
  have hold : calculateTotal demoEnv demoItemSession.cart = .finite 40 := by decide!
  ⟨h.1, h.2.1, hold, (h.2.2.2.2 40 hold).1, (h.2.2.2.2 40 hold).2⟩

/-- C3, as stated, fails: a new user who sends `hi`, `1`, `1` is in state
`item_selected`; the inputs `0`, `-3`, `2x` and `1.5`, none of them a positive
integer, are each accepted: the state becomes `cart` and the cart holds a
line of quantity 0, -3, 2 and 1. On a host that rounds to the nearest double,
a numeral of 400 digits is accepted too: `parseInt` returns `Infinity`, and
the quantity in the session file is `null`. -/
theorem quantity_check_counterexample :
    (run demoEnv "Ann" none [(1000, "hi"), (2000, "1"), (3000, "1")]).map (·.state) =
      some .item_selected ∧
    run demoEnv "Ann" none [(1000, "hi"), (2000, "1"), (3000, "1"), (4000, "0")] =
      some { state := .cart,
             cart := [{ item := some "1_1", quantity := 0, size := "Standard",
                        color := "Default" }],
             lastInteraction := some 4000, lastState := some .cart,
             currentCategory := some "Shirts", currentItem := some "1_1" } ∧
    (run demoEnv "Ann" none [(1000, "hi"), (2000, "1"), (3000, "1"), (4000, "-3")]).map
        (·.cart) =
      some [{ item := some "1_1", quantity := .finite (-3), size := "Standard",
              color := "Default" }] ∧
    (run demoEnv "Ann" none [(1000, "hi"), (2000, "1"), (3000, "1"), (4000, "2x")]).map
        (·.cart) =
      some [{ item := some "1_1", quantity := 2, size := "Standard", color := "Default" }] ∧
    (run demoEnv "Ann" none [(1000, "hi"), (2000, "1"), (3000, "1"), (4000, "1.5")]).map
        (·.cart) =
      some [{ item := some "1_1", quantity := 1, size := "Standard", color := "Default" }] ∧
    (run demoEnv "Ann" none
        [(1000, "hi"), (2000, "1"), (3000, "1"), (4000, ⟨List.replicate 400 '9'⟩)]).map
        (·.cart) =
      some [{ item := some "1_1", quantity := .null, size := "Standard",
              color := "Default" }] := by
  refine ⟨by decide, by decide, by decide, by decide, by decide, by decide!⟩

/-- C3, amended: in state `item_selected`, when the text is not the menu
command, the idle rule does not fire and no resume prompt is pending, let `q`
be the first comma-separated field, trimmed. If `q` is empty or `parseInt(q)`
is `NaN`, nothing is appended, the state stays `item_selected` and the only
reply is the quantity prompt. Otherwise `parseInt` reads an integer `k` in
`q`, the state becomes `cart` and one line is appended whose quantity is the
Number the host makes of `k`, as written to the session file: it is `k`
itself when `k` is at most 2^53 in absolute value, and it is never an
infinity, which is written as `null`. -/
theorem item_selected_quantity_check (env : Env) (now : Int) (senderName : String)
    (userSession : Session) (messageContent : String) (q : String) (rest : List String)
    (hstate : userSession.state = .item_selected)
    (hmenu : env.toLowerCase messageContent ≠ "menu")
    (hidle : isIdle now userSession = false)
    (htemp : userSession.tempState ≠ some "returning")
    (hfields : splitTrim messageContent = q :: rest) :
    (q = "" ∨ parseInt q = none →
      (handleMessage env now senderName userSession messageContent).saved.cart =
        userSession.cart ∧
      (handleMessage env now senderName userSession messageContent).saved.state =
        .item_selected ∧
      (handleMessage env now senderName userSession messageContent).sent =
        [{ body := .quantityPrompt }]) ∧
    (∀ k : Int, q ≠ "" → parseInt q = some k →
      (handleMessage env now senderName userSession messageContent).saved.cart =
        userSession.cart ++
          [{ item := userSession.currentItem,
             quantity := persistQuantity (env.toNumber k),
             size := orDefault (rest.get? 0) "Standard",
             color := orDefault (rest.get? 1) "Default" }] ∧
      (handleMessage env now senderName userSession messageContent).saved.state = .cart ∧
      (k.natAbs ≤ 2 ^ 53 → persistQuantity (env.toNumber k) = .finite k) ∧
      (∀ negative, persistQuantity (env.toNumber k) ≠ .infinity negative)) := by
  rw [handleMessage_of_dispatch env now senderName userSession messageContent hmenu hidle,
    resumeAnswer_of_not_returning env userSession messageContent htemp]
  constructor
  · intro h
    have hrej : (!truthy (some q) || (parseInt q).isNone) = true := by
      rcases h with h | h
      · subst h; rfl
      · simp [h]
    have hd : dispatch env senderName userSession messageContent =
        { session := userSession, sent := [{ body := .quantityPrompt }] } := by
      unfold dispatch
      simp only [hstate, hfields, List.get?_cons_zero, Option.getD_some, hrej, if_true]
    rw [hd]
    exact ⟨rfl, hstate, rfl⟩
  · intro k hq hk
    rw [dispatch_item_selected_accept env senderName userSession messageContent q rest k
      hstate hfields hq hk]
    exact ⟨rfl, rfl, persistQuantity_toNumber_safe env k,
      persistQuantity_ne_infinity (env.toNumber k)⟩

/-- Witness of the amended C3: the sample session receives `abc`, which
`parseInt` does not read, and `2x`, which it reads as 2. -/
theorem item_selected_quantity_check_witness :
    parseInt "abc" = none ∧
    ((handleMessage demoEnv 5000 "Ann" demoItemSession "abc").saved.cart =
        demoItemSession.cart ∧
      (handleMessage demoEnv 5000 "Ann" demoItemSession "abc").saved.state =
        .item_selected ∧
      (handleMessage demoEnv 5000 "Ann" demoItemSession "abc").sent =
        [{ body := .quantityPrompt }]) ∧
    (handleMessage demoEnv 5000 "Ann" demoItemSession "2x").saved.cart =
      demoItemSession.cart ++
        [{ item := demoItemSession.currentItem,
           quantity := persistQuantity (demoEnv.toNumber 2),
           size := orDefault (([] : List String).get? 0) "Standard",
           color := orDefault (([] : List String).get? 1) "Default" }] ∧
    (handleMessage demoEnv 5000 "Ann" demoItemSession "2x").saved.state = .cart ∧
    persistQuantity (demoEnv.toNumber 2) = .finite 2 :=
  ⟨by decide,
   (item_selected_quantity_check demoEnv 5000 "Ann" demoItemSession "abc" "abc" []
      rfl (by decide) (by decide) (by decide) (by decide)).1 (Or.inr (by decide)),
   ((item_selected_quantity_check demoEnv 5000 "Ann" demoItemSession "2x" "2x" []
      rfl (by decide) (by decide) (by decide) (by decide)).2 2 (by decide) (by decide)).1,
   ((item_selected_quantity_check demoEnv 5000 "Ann" demoItemSession "2x" "2x" []
      rfl (by decide) (by decide) (by decide) (by decide)).2 2 (by decide) (by decide)).2.1,
   ((item_selected_quantity_check demoEnv 5000 "Ann" demoItemSession "2x" "2x" []
      rfl (by decide) (by decide) (by decide) (by decide)).2 2 (by decide)
      (by decide)).2.2.1 (by decide)⟩

/-- C4: for every catalog and cart, `calculateTotal` (before `toFixed`), the
total of the cart view of `handleCart` and the total of the checkout summary
of `handleCheckout` are the same amount: the sum of `price * quantity` over
the lines whose item is the id of a catalog product, each with the first
product of that id in catalog order. For an empty cart the two commands show
the empty-cart text instead. When no quantity is an infinity, as in every
cart read from the session file, the amount is the rational sum `exactSum`.
All three functions are total, and a line whose item is the id of no catalog
product changes none of them. -/
theorem cart_totals_agree (env : Env) (cart : List CartLine) (userName : String) :
    calculateTotal env cart = resolvedSum env cart ∧
    shownTotal (handleCart env cart) =
      (if cart = [] then none else some (resolvedSum env cart)) ∧
    shownTotal (handleCheckout env cart userName) =
      (if cart = [] then none else some (resolvedSum env cart)) ∧
    ((∀ line ∈ cart, ∀ negative, line.quantity ≠ .infinity negative) →
      resolvedSum env cart = .finite (exactSum env cart)) ∧
    (∀ (before after : List CartLine) (line : CartLine),
      cart = before ++ line :: after →
      (∀ product ∈ env.database.products, some product.id ≠ line.item) →
      calculateTotal env cart = calculateTotal env (before ++ after) ∧
      shownTotal (handleCart env cart) =
        some (calculateTotal env (before ++ after)) ∧
      shownTotal (handleCheckout env cart userName) =
        some (calculateTotal env (before ++ after))) := by
  have hcart : shownTotal (handleCart env cart) =
      (if cart = [] then none else some (resolvedSum env cart)) := by
    cases cart with
    | nil => rfl
    | cons line rest =>
      simp [handleCart, shownTotal, cartForEach_total, resolvedSum]
  have hcheckout : shownTotal (handleCheckout env cart userName) =
      (if cart = [] then none else some (resolvedSum env cart)) := by
    cases cart with
    | nil => rfl
    | cons line rest =>
      simp [handleCheckout, shownTotal, checkoutForEach_total, resolvedSum]
  refine ⟨calculateTotal_eq_resolvedSum env cart, hcart, hcheckout, ?_, ?_⟩
  · intro hstored
    unfold resolvedSum
    rw [foldl_lineTotals_finite env cart 0 hstored]
    simp
  · intro before after line hsplit hnone
    have hres : resolves env line.item = none := resolves_eq_none env line.item hnone
    have hsum : resolvedSum env cart = resolvedSum env (before ++ after) := by
      rw [hsplit]
      unfold resolvedSum
      simp [List.filterMap_append, List.filterMap_cons, hres]
    have hne : cart ≠ [] := by
      rw [hsplit]
      simp
    rw [hcart, hcheckout, calculateTotal_eq_resolvedSum, calculateTotal_eq_resolvedSum, hsum]
    simp [hne]

/-- Witness of C4 on the sample catalog: two `Tee` at 10, five of an item
that is in no catalog and one `Boot` at 40 make 60 in all three places. -/
theorem cart_totals_agree_witness :
    calculateTotal demoEnv demoMixedCart = .finite 60 ∧
    shownTotal (handleCart demoEnv demoMixedCart) = some (.finite 60) ∧
    shownTotal (handleCheckout demoEnv demoMixedCart "Ann") = some (.finite 60) ∧
    exactSum demoEnv demoMixedCart = 60 :=
  have h := cart_totals_agree demoEnv demoMixedCart "Ann"
  have hsum : resolvedSum demoEnv demoMixedCart = .finite 60 := by decide!
  have hne : demoMixedCart ≠ [] := by decide
  ⟨h.1.trans hsum,
   by rw [h.2.1, if_neg hne, hsum],
   by rw [h.2.2.1, if_neg hne, hsum],
   by
    have hfin := h.2.2.2.1 (by decide)
    rw [hsum] at hfin
    exact (Amount.finite.inj hfin).symm⟩

/-- C5: when `lastInteraction` is set (a non-zero timestamp `t`), `lastState`
is not `initial`, more than 3600000 ms have passed since `t` and the text is
not the menu command, the handler sends the resume prompt and nothing else,
schedules nothing, and stores the session with `tempState = 'returning'` and
every other field, among them state, cart, current category and current
item, as it was. -/
theorem idle_resume_prompt (env : Env) (now t : Int) (senderName : String)
    (userSession : Session) (messageContent : String)
    (hlast : userSession.lastInteraction = some t) (hset : t ≠ 0)
    (hstate : userSession.lastState ≠ some .initial)
    (hidle : now - t > 3600000)
    (hmenu : env.toLowerCase messageContent ≠ "menu") :
    (handleMessage env now senderName userSession messageContent).sent =
      [{ body := .welcomeBack senderName }] ∧
    (handleMessage env now senderName userSession messageContent).saved =
      { userSession with tempState := some "returning" } ∧
    (handleMessage env now senderName userSession messageContent).saved.state =
      userSession.state ∧
    (handleMessage env now senderName userSession messageContent).saved.cart =
      userSession.cart ∧
    (handleMessage env now senderName userSession messageContent).saved.currentCategory =
      userSession.currentCategory ∧
    (handleMessage env now senderName userSession messageContent).saved.currentItem =
      userSession.currentItem ∧
    (handleMessage env now senderName userSession messageContent).deferred = none := by
  have hi : isIdle now userSession = true := by
    simp [isIdle, hlast, hset, hstate, hidle]
  simp [handleMessage, hmenu, hi]

/-- Witness of C5: the sample session, last used at time 1000, receives
`checkout` at time 3700000. -/
theorem idle_resume_prompt_witness :
    (handleMessage demoEnv 3700000 "Ann" demoSession "checkout").sent =
      [{ body := .welcomeBack "Ann" }] ∧
    (handleMessage demoEnv 3700000 "Ann" demoSession "checkout").saved =
      { demoSession with tempState := some "returning" } ∧
    (handleMessage demoEnv 3700000 "Ann" demoSession "checkout").saved.state =
      demoSession.state ∧
    (handleMessage demoEnv 3700000 "Ann" demoSession "checkout").saved.cart =
      demoSession.cart ∧
    (handleMessage demoEnv 3700000 "Ann" demoSession "checkout").saved.currentCategory =
      demoSession.currentCategory ∧
    (handleMessage demoEnv 3700000 "Ann" demoSession "checkout").saved.currentItem =
      demoSession.currentItem ∧
    (handleMessage demoEnv 3700000 "Ann" demoSession "checkout").deferred = none :=
  idle_resume_prompt demoEnv 3700000 1000 "Ann" demoSession "checkout" rfl (by decide)
    (by decide) (by decide) (by decide)

/-- C6 fails on the code. The sample session, last used at time 1000,
receives `hello` at time 3700000 and gets the resume prompt; the record stored
has `tempState = 'returning'` and still `lastInteraction = 1000`. The answers
`1` and `continue`, sent five seconds later, each get the resume prompt again:
`tempState` is not cleared and the state dispatch does not run (in state
`cart` it would handle `continue` by showing the main menu). -/
theorem resume_answer_prompts_again :
    (handleMessage demoEnv 3700000 "Ann" demoSession "hello").sent =
      [{ body := .welcomeBack "Ann" }] ∧
    (handleMessage demoEnv 3700000 "Ann" demoSession "hello").saved =
      { demoSession with tempState := some "returning" } ∧
    (handleMessage demoEnv 3705000 "Ann"
        (handleMessage demoEnv 3700000 "Ann" demoSession "hello").saved "1").sent =
      [{ body := .welcomeBack "Ann" }] ∧
    (handleMessage demoEnv 3705000 "Ann"
        (handleMessage demoEnv 3700000 "Ann" demoSession "hello").saved "1").saved =
      { demoSession with tempState := some "returning" } ∧
    (handleMessage demoEnv 3705000 "Ann"
        (handleMessage demoEnv 3700000 "Ann" demoSession "hello").saved "continue").sent =
      [{ body := .welcomeBack "Ann" }] ∧
    (handleMessage demoEnv 3705000 "Ann"
        (handleMessage demoEnv 3700000 "Ann" demoSession "hello").saved "continue").saved =
      { demoSession with tempState := some "returning" } ∧
    (dispatch demoEnv "Ann" demoSession "continue").session.state = .main_menu := by
  refine ⟨by decide, by decide, by decide, by decide, by decide, by decide, by decide⟩

/-- C7: when a resume prompt is pending (`tempState = 'returning'`), the idle
rule does not fire and the text is neither the menu command nor `1` nor, in
lower case, `continue`, the resume block resets the session to state
`initial` with an empty cart and no `tempState`, the dispatch runs from
`initial` in the same turn, the only reply is the main menu built by
`handleMainMenu`, which greets the sender and lists the categories whenever
the catalog has one, and the session stored has state `main_menu`, an empty
cart and no `tempState`. -/
theorem resume_start_over (env : Env) (now : Int) (senderName : String)
    (userSession : Session) (messageContent : String)
    (htemp : userSession.tempState = some "returning")
    (hidle : isIdle now userSession = false)
    (hmenu : env.toLowerCase messageContent ≠ "menu")
    (hone : messageContent ≠ "1")
    (hcontinue : env.toLowerCase messageContent ≠ "continue") :
    resumeAnswer env userSession messageContent =
      { userSession with state := .initial, cart := [], tempState := none } ∧
    (handleMessage env now senderName userSession messageContent).sent =
      [handleMainMenu env senderName] ∧
    (handleMessage env now senderName userSession messageContent).saved =
      { userSession with state := .main_menu, cart := [], tempState := none,
                         lastInteraction := some now, lastState := some .main_menu } ∧
    (handleMessage env now senderName userSession messageContent).deferred = none ∧
    (env.database.categories ≠ [] →
      (handleMessage env now senderName userSession messageContent).sent =
        [{ body := .menu senderName (categoryNames env),
           image := (handleMainMenu env senderName).image }]) := by
  have hr : resumeAnswer env userSession messageContent =
      { userSession with state := .initial, cart := [], tempState := none } := by
    simp [resumeAnswer, htemp, hone, hcontinue]
  have hbody : env.database.categories ≠ [] →
      handleMainMenu env senderName =
        { body := .menu senderName (categoryNames env),
          image := (handleMainMenu env senderName).image } := by
    intro hne
    unfold handleMainMenu
    split
    · rfl
    · split
      · exact absurd (by assumption) hne
      · rfl
  rw [handleMessage_of_dispatch env now senderName userSession messageContent hmenu hidle, hr]
  refine ⟨rfl, ?_, ?_, ?_, ?_⟩
  · simp [dispatch]
  · simp [dispatch]
  · simp [dispatch]
  · intro hne
    have hsent : (dispatch env senderName
        { userSession with state := .initial, cart := [], tempState := none }
        messageContent).sent ++
        (dispatch env senderName
          { userSession with state := .initial, cart := [], tempState := none }
          messageContent).response.toList = [handleMainMenu env senderName] := by
      simp [dispatch]
    rw [hsent]
    exact congrArg (fun r => [r]) (hbody hne)

/-- Witness of C7: a session with a pending prompt, last used 4 seconds
before, receives `2`; the reply is the menu for `Ann` with the two categories
of the sample catalog. -/
theorem resume_start_over_witness :
    resumeAnswer demoEnv { demoSession with tempState := some "returning" } "2" =
      { demoSession with state := .initial, cart := [], tempState := none } ∧
    (handleMessage demoEnv 5000 "Ann" { demoSession with tempState := some "returning" }
        "2").sent = [handleMainMenu demoEnv "Ann"] ∧
    (handleMessage demoEnv 5000 "Ann" { demoSession with tempState := some "returning" }
        "2").saved =
      { demoSession with state := .main_menu, cart := [], tempState := none,
                         lastInteraction := some 5000, lastState := some .main_menu } ∧
    (handleMessage demoEnv 5000 "Ann" { demoSession with tempState := some "returning" }
        "2").deferred = none ∧
    (handleMessage demoEnv 5000 "Ann" { demoSession with tempState := some "returning" }
        "2").sent = [{ body := .menu "Ann" ["Shirts", "Shoes"] }] :=
  have h := resume_start_over demoEnv 5000 "Ann"
    { demoSession with tempState := some "returning" } "2"
    rfl (by decide) (by decide) (by decide) (by decide)
  ⟨h.1, h.2.1, h.2.2.1, h.2.2.2.1, (h.2.2.2.2 (by decide)).trans (by decide)⟩

/-- C8, as stated, fails: `1.5` does not denote an integer and is the name of
no category and of no product, so by the claim the selection has
`success = false`; the code takes `parseInt('1.5') - 1 = 0` as the index and
selects the first category, and the first product of the category. -/
theorem selection_counterexample :
    isIntegerString "1.5" = false ∧
    demoEnv.database.categories.find?
      (fun c => demoEnv.toLowerCase c.name == demoEnv.toLowerCase "1.5") = none ∧
    (productsOf demoEnv 1).find?
      (fun p => demoEnv.toLowerCase p.name == demoEnv.toLowerCase "1.5") = none ∧
    isNaN "1.5" = false ∧ parseInt "1.5" = some 1 ∧
    handleCategorySelection demoEnv "1.5" = showCategory demoEnv { id := 1, name := "Shirts" } ∧
    (handleCategorySelection demoEnv "1.5").success = some true ∧
    handleItemSelection demoEnv "1.5" (some "Shirts") = showProduct demoEnv demoTee ∧
    (handleItemSelection demoEnv "1.5" (some "Shirts")).success = some true := by
  refine ⟨by decide, by decide, by decide, by decide, by decide, by decide, by decide,
    by decide, by decide⟩

/-- C8, amended: in both commands the index is `parseInt` of the selection,
used when the selection converts to a number (`isNaN` is false). If that
index `k` satisfies `1 <= k <= n`, the `k`-th entry of the list is selected,
whatever the names are. In every other case the first entry whose lower-cased
name equals the lower-cased selection is selected, and when there is none the
result is the invalid-selection text with `success = false`. The list is the
categories of the catalog for `handleCategorySelection`, and for
`handleItemSelection` the products of the category that `categoryName`
names. -/
theorem selection_index_then_name (env : Env) (selection categoryName : String)
    (category : Category) (hcategory : findCategory env categoryName = some category) :
    (∀ k : Nat, isNaN selection = false → parseInt selection = some (k : Int) → 1 ≤ k →
      k ≤ env.database.categories.length →
      (env.database.categories.get? (k - 1)).map (showCategory env) =
        some (handleCategorySelection env selection)) ∧
    (∀ k : Nat, isNaN selection = false → parseInt selection = some (k : Int) → 1 ≤ k →
      k ≤ (productsOf env category.id).length →
      ((productsOf env category.id).get? (k - 1)).map (showProduct env) =
        some (handleItemSelection env selection (some categoryName))) ∧
    (¬ (isNaN selection = false ∧ ∃ k : Nat, parseInt selection = some (k : Int) ∧ 1 ≤ k ∧
          k ≤ env.database.categories.length) →
      handleCategorySelection env selection =
        match env.database.categories.find?
            (fun c => env.toLowerCase c.name == env.toLowerCase selection) with
        | some c => showCategory env c
        | none => { body := .invalidSelection env.database.categories.length,
                    success := some false }) ∧
    (¬ (isNaN selection = false ∧ ∃ k : Nat, parseInt selection = some (k : Int) ∧ 1 ≤ k ∧
          k ≤ (productsOf env category.id).length) →
      handleItemSelection env selection (some categoryName) =
        match (productsOf env category.id).find?
            (fun p => env.toLowerCase p.name == env.toLowerCase selection) with
        | some p => showProduct env p
        | none => { body := .invalidSelection (productsOf env category.id).length,
                    success := some false }) := by
  refine ⟨?_, ?_, ?_, ?_⟩
  · intro k hnum hk h1 h2
    have hlt : k - 1 < env.database.categories.length := by omega
    unfold handleCategorySelection
    dsimp only
    rw [selectEntry_index env Category.name _ selection k hnum hk h1 h2,
      List.get?_eq_get hlt]
    rfl
  · intro k hnum hk h1 h2
    have hlt : k - 1 < (productsOf env category.id).length := by omega
    unfold handleItemSelection
    simp only [hcategory]
    rw [selectEntry_index env Product.name _ selection k hnum hk h1 h2,
      List.get?_eq_get hlt]
    rfl
  · intro h
    unfold handleCategorySelection
    dsimp only
    rw [selectEntry_name env Category.name _ selection h]
    cases env.database.categories.find?
      (fun c => env.toLowerCase c.name == env.toLowerCase selection) <;> rfl
  · intro h
    unfold handleItemSelection
    simp only [hcategory]
    rw [selectEntry_name env Product.name _ selection h]
    cases (productsOf env category.id).find?
      (fun p => env.toLowerCase p.name == env.toLowerCase selection) <;> rfl

/-- Witness of the amended C8 on the sample catalog: `2` selects the second
category and the second product of `Shirts`; `SHOES` and `polo` select by
name. -/
theorem selection_index_then_name_witness :
    findCategory demoEnv "shirts" = some { id := 1, name := "Shirts" } ∧
    (demoEnv.database.categories.get? (2 - 1)).map (showCategory demoEnv) =
      some (handleCategorySelection demoEnv "2") ∧
    ((productsOf demoEnv 1).get? (2 - 1)).map (showProduct demoEnv) =
      some (handleItemSelection demoEnv "2" (some "shirts")) :=
  ⟨by decide,
   (selection_index_then_name demoEnv "2" "shirts" { id := 1, name := "Shirts" }
      (by decide)).1 2 (by decide) (by decide) (by decide) (by decide),
   (selection_index_then_name demoEnv "2" "shirts" { id := 1, name := "Shirts" }
      (by decide)).2.1 2 (by decide) (by decide) (by decide) (by decide)⟩

/-- C9 fails on the code. A new user sends `menu`, `search`, `tee`: the
search lists the single product `1_1` and the session is in state
`search_results` with no current category. The answer `1` then gets the
item-selection error with `success = false`; the state stays `search_results`
and no current item is stored. When a category is left over from earlier
browsing (a new user sends `hi`, `1`, `1`, `2,L,blue`, `continue`, `search`,
`boot`, so that the category is `Shirts`), the search lists the product `2_1`
only, and the answer `1` stores the first product of `Shirts`, `1_1`, which
is not in the list displayed. -/
theorem search_selection_ignores_results :
    run demoEnv "Ann" none [(1000, "menu"), (2000, "search"), (3000, "tee")] =
      some { state := .search_results, cart := [], lastInteraction := some 3000,
             lastState := some .search_results } ∧
    (handleSearch demoEnv "tee").results = some ["1_1"] ∧
    (handleMessage demoEnv 4000 "Ann"
        { state := .search_results, cart := [], lastInteraction := some 3000,
          lastState := some .search_results } "1").sent =
      [{ body := .itemError, success := some false }] ∧
    (handleMessage demoEnv 4000 "Ann"
        { state := .search_results, cart := [], lastInteraction := some 3000,
          lastState := some .search_results } "1").saved =
      { state := .search_results, cart := [], lastInteraction := some 4000,
        lastState := some .search_results } ∧
    (run demoEnv "Ann" none
        [(1000, "hi"), (2000, "1"), (3000, "1"), (4000, "2,L,blue"), (5000, "continue"),
         (6000, "search"), (7000, "boot")]).map
        (fun userSession => (userSession.state, userSession.currentCategory)) =
      some (.search_results, some "Shirts") ∧
    (handleSearch demoEnv "boot").results = some ["2_1"] ∧
    (run demoEnv "Ann" none
        [(1000, "hi"), (2000, "1"), (3000, "1"), (4000, "2,L,blue"), (5000, "continue"),
         (6000, "search"), (7000, "boot"), (8000, "1")]).map
        (fun userSession => (userSession.state, userSession.currentItem)) =
      some (.item_selected, some "1_1") := by
  refine ⟨by decide, by decide, by decide, by decide, by decide, by decide, by decide⟩

/-- C10, as stated, fails: after the menu command the session stored has
neither `lastInteraction` nor `lastState`. -/
theorem final_update_counterexample :
    (handleMessage demoEnv 5000 "Ann" demoSession "menu").saved.lastInteraction = none ∧
    (handleMessage demoEnv 5000 "Ann" demoSession "menu").saved.lastState = none ∧
    (handleMessage demoEnv 5000 "Ann" demoSession "menu").saved.lastInteraction ≠ some 5000 ∧
    (handleMessage demoEnv 5000 "Ann" demoSession "menu").saved.lastState ≠
      some (handleMessage demoEnv 5000 "Ann" demoSession "menu").saved.state := by
  refine ⟨by decide, by decide, by decide, by decide⟩

/-- C10, amended: whenever the state dispatch runs, that is when the text is
not the menu command and the idle rule does not fire (a resume answer or any
state of the dispatch table), the session stored at the end of the handler
has `lastInteraction` equal to the current time and `lastState` equal to its
own state. The menu command stores a session with neither field. -/
theorem final_update (env : Env) (now : Int) (senderName : String)
    (userSession : Session) (messageContent : String)
    (hbranch : env.toLowerCase messageContent = "menu" ∨ isIdle now userSession = false) :
    (handleMessage env now senderName userSession messageContent).saved.lastInteraction =
      (if env.toLowerCase messageContent = "menu" then none else some now) ∧
    (handleMessage env now senderName userSession messageContent).saved.lastState =
      (if env.toLowerCase messageContent = "menu" then none
       else some (handleMessage env now senderName userSession messageContent).saved.state) := by
  by_cases hmenu : env.toLowerCase messageContent = "menu"
  · simp [handleMessage, hmenu]
  · have hidle : isIdle now userSession = false := by
      rcases hbranch with h | h
      · exact absurd h hmenu
      · exact h
    rw [handleMessage_of_dispatch env now senderName userSession messageContent hmenu hidle]
    simp [hmenu]

/-- Witness of the amended C10: the sample session, in state `cart`, receives
`checkout` four seconds after its last interaction. -/
theorem final_update_witness :
    (handleMessage demoEnv 5000 "Ann" demoSession "checkout").saved.lastInteraction =
      (if demoEnv.toLowerCase "checkout" = "menu" then none else some 5000) ∧
    (handleMessage demoEnv 5000 "Ann" demoSession "checkout").saved.lastState =
      (if demoEnv.toLowerCase "checkout" = "menu" then none
       else some (handleMessage demoEnv 5000 "Ann" demoSession "checkout").saved.state) :=
  final_update demoEnv 5000 "Ann" demoSession "checkout" (Or.inr (by decide))

/-- C11: in state `checkout`, when the idle rule does not fire and no resume
prompt is pending, a message whose lower-cased text is `confirm` gets the
confirmation message carrying `calculateTotal` of the cart as it was before
it is cleared (the two decimals are its rendering), and nothing else; the
session stored has an empty cart and state `initial`; and the callback that
was scheduled stores the same session with state `main_menu`, the cart still
empty, and sends the main menu. -/
theorem checkout_confirm (env : Env) (now : Int) (senderName : String)
    (userSession : Session) (messageContent : String)
    (hstate : userSession.state = .checkout)
    (hidle : isIdle now userSession = false)
    (htemp : userSession.tempState ≠ some "returning")
    (hconfirm : env.toLowerCase messageContent = "confirm") :
    (handleMessage env now senderName userSession messageContent).sent =
      [{ body := .orderConfirmed senderName (calculateTotal env userSession.cart) }] ∧
    (handleMessage env now senderName userSession messageContent).saved.cart = [] ∧
    (handleMessage env now senderName userSession messageContent).saved.state = .initial ∧
    (handleMessage env now senderName userSession messageContent).saved =
      { userSession with cart := [], state := .initial, lastInteraction := some now,
                         lastState := some .initial } ∧
    (handleMessage env now senderName userSession messageContent).deferred =
      some ({ userSession with cart := [], state := .main_menu, lastInteraction := some now,
                               lastState := some .initial },
            handleMainMenu env senderName) := by
  have hmenu : env.toLowerCase messageContent ≠ "menu" := by
    rw [hconfirm]; decide
  rw [handleMessage_of_dispatch env now senderName userSession messageContent hmenu hidle,
    resumeAnswer_of_not_returning env userSession messageContent htemp]
  simp [dispatch, hstate, hconfirm]

/-- Witness of C11: a session in state `checkout` with the cart of the sample
session receives `Confirm` four seconds after its last interaction. -/
theorem checkout_confirm_witness :
    (handleMessage demoEnv 5000 "Ann" { demoSession with state := .checkout } "Confirm").sent =
      [{ body := .orderConfirmed "Ann" (calculateTotal demoEnv demoSession.cart) }] ∧
    (handleMessage demoEnv 5000 "Ann" { demoSession with state := .checkout }
      "Confirm").saved.cart = [] ∧
    (handleMessage demoEnv 5000 "Ann" { demoSession with state := .checkout }
      "Confirm").saved.state = .initial ∧
    (handleMessage demoEnv 5000 "Ann" { demoSession with state := .checkout }
      "Confirm").saved =
      { demoSession with cart := [], state := .initial, lastInteraction := some 5000,
                         lastState := some .initial } ∧
    (handleMessage demoEnv 5000 "Ann" { demoSession with state := .checkout }
      "Confirm").deferred =
      some ({ demoSession with cart := [], state := .main_menu, lastInteraction := some 5000,
                               lastState := some .initial },
            handleMainMenu demoEnv "Ann") :=
  checkout_confirm demoEnv 5000 "Ann" { demoSession with state := .checkout } "Confirm"
    rfl (by decide) (by decide) (by decide)

/-- C12, as stated, fails: the session is in state `searching` and the
keyword `tee` is not the menu command, but more than an hour has passed since
the last interaction, so the handler only sends the resume prompt and the
state stays `searching`. -/
theorem search_counterexample :
    (handleMessage demoEnv 3700000 "Ann"
        { demoSession with state := .searching, lastState := some .searching } "tee").sent =
      [{ body := .welcomeBack "Ann" }] ∧
    (handleMessage demoEnv 3700000 "Ann"
        { demoSession with state := .searching, lastState := some .searching }
        "tee").saved.state = .searching ∧
    (handleMessage demoEnv 3700000 "Ann"
        { demoSession with state := .searching, lastState := some .searching }
        "tee").saved.state ≠ .search_results := by
  refine ⟨by decide, by decide, by decide⟩

/-- C12, amended: for every keyword, `handleSearch` finds the catalog products
whose lower-cased name or description contains the lower-cased keyword, in
catalog order; when there is none it returns the no-results text with
`success = false`, otherwise the list of these products numbered from 1, with
`success = true` and their ids as `results`. For a session in state
`searching`, when the text is not the menu command, the idle rule does not
fire and no resume prompt is pending, the handler replies with the result of
`handleSearch` and nothing else, and stores state `search_results`, also when
nothing was found. -/
theorem search_then_results (env : Env) (now : Int) (senderName : String)
    (userSession : Session) (keyword : String)
    (hstate : userSession.state = .searching)
    (hmenu : env.toLowerCase keyword ≠ "menu")
    (hidle : isIdle now userSession = false)
    (htemp : userSession.tempState ≠ some "returning") :
    handleSearch env keyword =
      (if env.database.products.filter (containsKeyword env keyword) = [] then
        { body := .noResults keyword, success := some false }
       else
        { body := .searchResults keyword
            (numbered (env.database.products.filter (containsKeyword env keyword))),
          success := some true,
          results := some ((env.database.products.filter (containsKeyword env keyword)).map
            (·.id)) }) ∧
    (∀ (i : Nat) (p : Product),
      (env.database.products.filter (containsKeyword env keyword)).get? i = some p →
      (numbered (env.database.products.filter (containsKeyword env keyword))).get? i =
        some (i + 1, p)) ∧
    (handleMessage env now senderName userSession keyword).sent = [handleSearch env keyword] ∧
    (handleMessage env now senderName userSession keyword).saved =
      { userSession with state := .search_results, lastInteraction := some now,
                         lastState := some .search_results } ∧
    (handleMessage env now senderName userSession keyword).deferred = none := by
  refine ⟨?_, ?_, ?_⟩
  · unfold handleSearch
    simp only [handleSearch_filter]
    cases h : env.database.products.filter (containsKeyword env keyword) with
    | nil => simp
    | cons p ps => simp
  · intro i p hp
    rw [numbered_get?, hp]
    rfl
  · rw [handleMessage_of_dispatch env now senderName userSession keyword hmenu hidle,
      resumeAnswer_of_not_returning env userSession keyword htemp]
    simp [dispatch, hstate]

/-- Witness of the amended C12: a session in state `searching`, last used 4
seconds before, receives `zzz-nonexistent`, which no product contains. -/
theorem search_then_results_witness :
    handleSearch demoEnv "zzz-nonexistent" =
      { body := .noResults "zzz-nonexistent", success := some false } ∧
    (handleMessage demoEnv 5000 "Ann"
        { demoSession with state := .searching, lastState := some .searching }
        "zzz-nonexistent").sent = [handleSearch demoEnv "zzz-nonexistent"] ∧
    (handleMessage demoEnv 5000 "Ann"
        { demoSession with state := .searching, lastState := some .searching }
        "zzz-nonexistent").saved =
      { demoSession with state := .search_results, lastInteraction := some 5000,
                         lastState := some .search_results } :=
  ⟨by decide,
   (search_then_results demoEnv 5000 "Ann"
      { demoSession with state := .searching, lastState := some .searching }
      "zzz-nonexistent" rfl (by decide) (by decide) (by decide)).2.2.1,
   (search_then_results demoEnv 5000 "Ann"
      { demoSession with state := .searching, lastState := some .searching }
      "zzz-nonexistent" rfl (by decide) (by decide) (by decide)).2.2.2.1⟩

/-- C13, as stated, fails: in a catalog whose second category `Hats` has no
product, a session in state `main_menu` used four seconds before sends `2`, a
valid category number, or `hats`, the name of the category; the reply is the
no-products text with `success = false`, the state stays `main_menu` and no
current category is stored. -/
theorem category_choice_counterexample :
    (handleMessage demoSparseEnv 5000 "Ann"
        { state := .main_menu, cart := [], lastInteraction := some 1000,
          lastState := some .main_menu } "2").sent =
      [{ body := .noProducts "Hats", success := some false }] ∧
    (handleMessage demoSparseEnv 5000 "Ann"
        { state := .main_menu, cart := [], lastInteraction := some 1000,
          lastState := some .main_menu } "2").saved =
      { state := .main_menu, cart := [], lastInteraction := some 5000,
        lastState := some .main_menu } ∧
    (handleMessage demoSparseEnv 5000 "Ann"
        { state := .main_menu, cart := [], lastInteraction := some 1000,
          lastState := some .main_menu } "hats").sent =
      [{ body := .noProducts "Hats", success := some false }] ∧
    (handleMessage demoSparseEnv 5000 "Ann"
        { state := .main_menu, cart := [], lastInteraction := some 1000,
          lastState := some .main_menu } "hats").saved.state = .main_menu ∧
    (handleMessage demoSparseEnv 5000 "Ann"
        { state := .main_menu, cart := [], lastInteraction := some 1000,
          lastState := some .main_menu } "hats").saved.currentCategory = none := by
  refine ⟨by decide, by decide, by decide, by decide, by decide⟩

/-- C13, amended: for a session in state `main_menu`, when the lower-cased
text is neither `menu` nor `search`, the idle rule does not fire and no resume
prompt is pending: if the text selects a category by the rule `Selects` (the
text converts to a number, so `isNaN` is false, and `parseInt` of it is the
number of the category in the menu; or there is no such number and the text is
the name of the category in any case) and this category has a product, the
only reply is the numbered product list of the category, with
`success = true`, and the session stored has state `category_selected` and
the name of the category as current category; if the category selected has no
product, or the text selects no category, the only reply is an error text with
`success = false`, and the state stays `main_menu` with the current category
unchanged. -/
theorem main_menu_category_choice (env : Env) (now : Int) (senderName : String)
    (userSession : Session) (messageContent : String)
    (hstate : userSession.state = .main_menu)
    (hmenu : env.toLowerCase messageContent ≠ "menu")
    (hsearch : env.toLowerCase messageContent ≠ "search")
    (hidle : isIdle now userSession = false)
    (htemp : userSession.tempState ≠ some "returning") :
    (∀ c : Category,
      Selects env Category.name env.database.categories messageContent c →
      productsOf env c.id ≠ [] →
      (handleMessage env now senderName userSession messageContent).sent =
        [{ body := .productList c.name (numbered (productsOf env c.id)),
           image := orElse c.image env.settings.defaultImage,
           success := some true,
           categoryName := some c.name }] ∧
      (handleMessage env now senderName userSession messageContent).saved =
        { userSession with state := .category_selected, currentCategory := some c.name,
                           lastInteraction := some now,
                           lastState := some .category_selected }) ∧
    (∀ c : Category,
      Selects env Category.name env.database.categories messageContent c →
      productsOf env c.id = [] →
      (handleMessage env now senderName userSession messageContent).sent =
        [{ body := .noProducts c.name, success := some false }] ∧
      (handleMessage env now senderName userSession messageContent).saved =
        { userSession with lastInteraction := some now, lastState := some .main_menu }) ∧
    (SelectsNothing env Category.name env.database.categories messageContent →
      (handleMessage env now senderName userSession messageContent).sent =
        [{ body := .invalidSelection env.database.categories.length,
           success := some false }] ∧
      (handleMessage env now senderName userSession messageContent).saved =
        { userSession with lastInteraction := some now, lastState := some .main_menu }) := by
  rw [handleMessage_of_dispatch env now senderName userSession messageContent hmenu hidle,
    resumeAnswer_of_not_returning env userSession messageContent htemp]
  refine ⟨?_, ?_, ?_⟩
  · intro c hsel hne
    have hs := (selectEntry_eq_some_iff env Category.name _ messageContent c).2 hsel
    have hlen : (productsOf env c.id).length ≠ 0 := by
      intro h0
      exact hne (List.length_eq_zero.1 h0)
    have hresp : handleCategorySelection env messageContent =
        { body := .productList c.name (numbered (productsOf env c.id)),
          image := orElse c.image env.settings.defaultImage,
          success := some true,
          categoryName := some c.name } := by
      simp [handleCategorySelection, hs, showCategory, hlen]
    simp [dispatch, hstate, hsearch, hresp]
  · intro c hsel hempty
    have hs := (selectEntry_eq_some_iff env Category.name _ messageContent c).2 hsel
    have hresp : handleCategorySelection env messageContent =
        { body := .noProducts c.name, success := some false } := by
      simp [handleCategorySelection, hs, showCategory, hempty]
    simp [dispatch, hstate, hsearch, hresp]
  · intro hnone
    have hs := (selectEntry_eq_none_iff env Category.name _ messageContent).2 hnone
    have hresp : handleCategorySelection env messageContent =
        { body := .invalidSelection env.database.categories.length,
          success := some false } := by
      simp [handleCategorySelection, hs]
    simp [dispatch, hstate, hsearch, hresp]

/-- Witness of the amended C13 on the sample catalog: a session in state
`main_menu`, used four seconds before, sends `SHOES`. -/
theorem main_menu_category_choice_witness :
    Selects demoEnv Category.name demoEnv.database.categories "SHOES"
      { id := 2, name := "Shoes" } ∧
    productsOf demoEnv 2 ≠ [] ∧
    (handleMessage demoEnv 5000 "Ann"
        { state := .main_menu, cart := [], lastInteraction := some 1000,
          lastState := some .main_menu } "SHOES").sent =
      [{ body := .productList "Shoes" (numbered (productsOf demoEnv 2)),
         image := orElse none demoEnv.settings.defaultImage,
         success := some true,
         categoryName := some "Shoes" }] ∧
    (handleMessage demoEnv 5000 "Ann"
        { state := .main_menu, cart := [], lastInteraction := some 1000,
          lastState := some .main_menu } "SHOES").saved =
      { state := .category_selected, cart := [], lastInteraction := some 5000,
        lastState := some .category_selected, currentCategory := some "Shoes" } :=
  ⟨Or.inr ⟨fun h => absurd h.1 (by decide), by decide⟩, by decide,
   (main_menu_category_choice demoEnv 5000 "Ann"
      { state := .main_menu, cart := [], lastInteraction := some 1000,
        lastState := some .main_menu } "SHOES" rfl (by decide) (by decide) (by decide)
      (by decide)).1 { id := 2, name := "Shoes" } (Or.inr ⟨fun h => absurd h.1 (by decide), by decide⟩)
      (by decide)⟩

/-- C14, as stated, fails: the sample session is in state `cart` with one
line in its cart; the message `menu`, which is not `confirm` in state
`checkout`, empties the cart, so the cart before is not the beginning of the
cart after. So does the answer `2` to a pending resume prompt. -/
theorem cart_append_only_counterexample :
    demoSession.state = .cart ∧
    demoSession.cart = [{ item := some "1_1", quantity := 2, size := "L", color := "blue" }] ∧
    (handleMessage demoEnv 5000 "Ann" demoSession "menu").saved.cart = [] ∧
    ¬ (demoSession.cart <+: (handleMessage demoEnv 5000 "Ann" demoSession "menu").saved.cart) ∧
    (handleMessage demoEnv 5000 "Ann" { demoSession with tempState := some "returning" }
      "2").saved.cart = [] := by
  refine ⟨rfl, rfl, by decide, ?_, by decide⟩
  have h : (handleMessage demoEnv 5000 "Ann" demoSession "menu").saved.cart = [] := by decide
  rw [h]
  intro hp
  have := List.prefix_nil.1 hp
  exact absurd this (by decide)

/-- C14, amended: the cart is emptied by the menu command and, when the idle
rule does not fire, by an answer other than `1` or `continue` to a pending
resume prompt and by `confirm` in state `checkout`. For every other message
the cart stored is the cart before the message or that cart with one line
appended, so the cart before is the beginning of the cart after. -/
theorem cart_append_only (env : Env) (now : Int) (senderName : String)
    (userSession : Session) (messageContent : String) :
    (¬ clearsCart env now userSession messageContent →
      userSession.cart <+:
        (handleMessage env now senderName userSession messageContent).saved.cart ∧
      ((handleMessage env now senderName userSession messageContent).saved.cart =
          userSession.cart ∨
        ∃ line, (handleMessage env now senderName userSession messageContent).saved.cart =
          userSession.cart ++ [line])) ∧
    (clearsCart env now userSession messageContent →
      (handleMessage env now senderName userSession messageContent).saved.cart = []) := by
  constructor
  · intro hkeep
    have hmenu : env.toLowerCase messageContent ≠ "menu" := fun h => hkeep (Or.inl h)
    have hcases : (handleMessage env now senderName userSession messageContent).saved.cart =
          userSession.cart ∨
        ∃ line, (handleMessage env now senderName userSession messageContent).saved.cart =
          userSession.cart ++ [line] := by
      cases hidle : isIdle now userSession with
      | true =>
        left
        simp [handleMessage, hmenu, hidle]
      | false =>
        rw [handleMessage_of_dispatch env now senderName userSession messageContent hmenu hidle]
        have hres : (resumeAnswer env userSession messageContent).cart = userSession.cart ∧
            (resumeAnswer env userSession messageContent).state = userSession.state := by
          unfold resumeAnswer
          split
          · next ht =>
            split
            · exact ⟨rfl, rfl⟩
            · next hno =>
              exfalso
              apply hkeep
              right
              refine ⟨hidle, Or.inl ⟨ht, ?_, ?_⟩⟩
              · intro h1
                exact hno (Or.inl h1)
              · intro h2
                exact hno (Or.inr h2)
          · exact ⟨rfl, rfl⟩
        have hconfirm : ¬ ((resumeAnswer env userSession messageContent).state = .checkout ∧
            env.toLowerCase messageContent = "confirm") := by
          rintro ⟨hs, hc⟩
          rw [hres.2] at hs
          exact hkeep (Or.inr ⟨hidle, Or.inr ⟨hs, hc⟩⟩)
        have hd := dispatch_cart env senderName (resumeAnswer env userSession messageContent)
          messageContent hconfirm
        rw [hres.1] at hd
        exact hd
    refine ⟨?_, hcases⟩
    rcases hcases with h | ⟨line, h⟩
    · rw [h]
    · rw [h]
      exact List.prefix_append _ _
  · rintro (hmenu | ⟨hidle, hreset | hconfirm⟩)
    · simp [handleMessage, hmenu]
    · obtain ⟨ht, h1, h2⟩ := hreset
      by_cases hmenu : env.toLowerCase messageContent = "menu"
      · simp [handleMessage, hmenu]
      · rw [handleMessage_of_dispatch env now senderName userSession messageContent hmenu
          hidle]
        have hr : resumeAnswer env userSession messageContent =
            { userSession with state := .initial, cart := [], tempState := none } := by
          simp [resumeAnswer, ht, h1, h2]
        rw [hr]
        simp [dispatch]
    · obtain ⟨hs, hc⟩ := hconfirm
      have hmenu : env.toLowerCase messageContent ≠ "menu" := by
        rw [hc]; decide
      rw [handleMessage_of_dispatch env now senderName userSession messageContent hmenu hidle]
      by_cases ht : userSession.tempState = some "returning"
      · by_cases h1 : messageContent = "1"
        · have hr : resumeAnswer env userSession messageContent =
              { userSession with tempState := none } := by
            simp [resumeAnswer, ht, h1]
          rw [hr]
          simp [dispatch, hs, hc]
        · have hr : resumeAnswer env userSession messageContent =
              { userSession with state := .initial, cart := [], tempState := none } := by
            simp [resumeAnswer, ht, h1, hc]
          rw [hr]
          simp [dispatch]
      · rw [resumeAnswer_of_not_returning env userSession messageContent ht]
        simp [dispatch, hs, hc]

/-- Witness of the amended C14: the sample session receives `hello`, which
keeps its cart, and `menu`, which empties it. -/
theorem cart_append_only_witness :
    ¬ clearsCart demoEnv 5000 demoSession "hello" ∧
    demoSession.cart <+: (handleMessage demoEnv 5000 "Ann" demoSession "hello").saved.cart ∧
    clearsCart demoEnv 5000 demoSession "menu" ∧
    (handleMessage demoEnv 5000 "Ann" demoSession "menu").saved.cart = [] :=
  have hkeep : ¬ clearsCart demoEnv 5000 demoSession "hello" := by
    unfold clearsCart
    decide
  have hclear : clearsCart demoEnv 5000 demoSession "menu" := Or.inl (by decide)
  ⟨hkeep, ((cart_append_only demoEnv 5000 "Ann" demoSession "hello").1 hkeep).1,
   hclear, (cart_append_only demoEnv 5000 "Ann" demoSession "menu").2 hclear⟩

/-- C15: in a catalog whose first category `c` has a first product `p`, from
any stored session or none, the messages `menu`, `1`, `1`, `2,L,blue`, the
third at most an hour after the second and the fourth at most an hour after
the third, leave a stored session in state `cart` whose cart is the single
line with item `p.id`, quantity 2, size `L` and color `blue`. -/
theorem browse_and_add_scenario (env : Env) (senderName : String) (stored : Option Session)
    (t1 t2 t3 t4 : Int) (c : Category) (categories : List Category) (p : Product)
    (products : List Product)
    (hcategories : env.database.categories = c :: categories)
    (hproducts : productsOf env c.id = p :: products)
    (h23 : t3 - t2 ≤ 3600000) (h34 : t4 - t3 ≤ 3600000) :
    run env senderName stored [(t1, "menu"), (t2, "1"), (t3, "1"), (t4, "2,L,blue")] =
      some { state := .cart,
             cart := [{ item := some p.id, quantity := 2, size := "L", color := "blue" }],
             lastInteraction := some t4, lastState := some .cart,
             currentCategory := some c.name, currentItem := some p.id } := by
  have hmenu : env.toLowerCase "menu" = "menu" :=
    toLowerCase_fixed env "menu" (by decide) (by decide)
  have hone : env.toLowerCase "1" = "1" :=
    toLowerCase_fixed env "1" (by decide) (by decide)
  have hline : env.toLowerCase "2,L,blue" = "2,l,blue" := by
    rw [env.toLowerCase_ascii "2,L,blue" (by decide)]
    decide
  have hone_menu : env.toLowerCase "1" ≠ "menu" := by rw [hone]; decide
  have hone_search : env.toLowerCase "1" ≠ "search" := by rw [hone]; decide
  have hline_menu : env.toLowerCase "2,L,blue" ≠ "menu" := by rw [hline]; decide
  have step1 : storeAfter (processMessage env t1 senderName stored "menu") =
      { state := .main_menu, cart := [] } := by
    simp [processMessage, handleMessage, hmenu, storeAfter]
  have hcat : handleCategorySelection env "1" =
      { body := .productList c.name (numbered (p :: products)),
        image := orElse c.image env.settings.defaultImage,
        success := some true,
        categoryName := some c.name } := by
    have hsel : selectEntry env Category.name env.database.categories "1" = some c := by
      rw [selectEntry_index env Category.name _ "1" 1 (by decide) (by decide) (le_refl 1)
        (by rw [hcategories]; simp), hcategories]
      rfl
    simp [handleCategorySelection, hsel, showCategory, hproducts]
  have step2 : storeAfter (processMessage env t2 senderName
      (some { state := .main_menu, cart := [] }) "1") =
      { state := .category_selected, cart := [], lastInteraction := some t2,
        lastState := some .category_selected, currentCategory := some c.name } := by
    have hidle : isIdle t2 { state := .main_menu, cart := [] } = false := rfl
    simp only [processMessage, setupUserSession]
    rw [handleMessage_of_dispatch env t2 senderName _ "1" hone_menu hidle,
      resumeAnswer_of_not_returning env _ "1" (by simp)]
    simp [dispatch, hone_search, hcat, storeAfter]
  have hitem : handleItemSelection env "1" (some c.name) = showProduct env p := by
    have hfind : findCategory env c.name = some c := by
      simp [findCategory, hcategories]
    have hsel : selectEntry env Product.name (productsOf env c.id) "1" = some p := by
      rw [selectEntry_index env Product.name _ "1" 1 (by decide) (by decide) (le_refl 1)
        (by rw [hproducts]; simp), hproducts]
      rfl
    simp [handleItemSelection, hfind, hsel]
  have step3 : storeAfter (processMessage env t3 senderName
      (some { state := .category_selected, cart := [], lastInteraction := some t2,
              lastState := some .category_selected, currentCategory := some c.name }) "1") =
      { state := .item_selected, cart := [], lastInteraction := some t3,
        lastState := some .item_selected, currentCategory := some c.name,
        currentItem := some p.id } := by
    have hidle : isIdle t3
        { state := .category_selected, cart := [], lastInteraction := some t2,
          lastState := some .category_selected, currentCategory := some c.name } = false := by
      have : ¬ (t3 - t2 > 3600000) := by omega
      simp [isIdle, this]
    simp only [processMessage, setupUserSession]
    rw [handleMessage_of_dispatch env t3 senderName _ "1" hone_menu hidle,
      resumeAnswer_of_not_returning env _ "1" (by simp)]
    simp [dispatch, hitem, showProduct, storeAfter]
  have step4 : storeAfter (processMessage env t4 senderName
      (some { state := .item_selected, cart := [], lastInteraction := some t3,
              lastState := some .item_selected, currentCategory := some c.name,
              currentItem := some p.id }) "2,L,blue") =
      { state := .cart,
        cart := [{ item := some p.id, quantity := 2, size := "L", color := "blue" }],
        lastInteraction := some t4, lastState := some .cart,
        currentCategory := some c.name, currentItem := some p.id } := by
    have hidle : isIdle t4
        { state := .item_selected, cart := [], lastInteraction := some t3,
          lastState := some .item_selected, currentCategory := some c.name,
          currentItem := some p.id } = false := by
      have : ¬ (t4 - t3 > 3600000) := by omega
      simp [isIdle, this]
    simp only [processMessage, setupUserSession]
    rw [handleMessage_of_dispatch env t4 senderName _ "2,L,blue" hline_menu hidle,
      resumeAnswer_of_not_returning env _ "2,L,blue" (by simp),
      dispatch_item_selected_accept env senderName _ "2,L,blue" "2" ["L", "blue"] 2 rfl
        (by decide) (by decide) (by decide)]
    simp [storeAfter, orDefault]
    exact persistQuantity_toNumber_safe env 2 (by decide)
  simp only [run, step1, step2, step3, step4]

/-- Witness of C15 on the sample catalog, for a user without a stored
session. -/
theorem browse_and_add_scenario_witness :
    run demoEnv "Ann" none [(1000, "menu"), (2000, "1"), (3000, "1"), (4000, "2,L,blue")] =
      some { state := .cart,
             cart := [{ item := some demoTee.id, quantity := 2, size := "L",
                        color := "blue" }],
             lastInteraction := some 4000, lastState := some .cart,
             currentCategory := some "Shirts", currentItem := some demoTee.id } :=
  browse_and_add_scenario demoEnv "Ann" none 1000 2000 3000 4000 { id := 1, name := "Shirts" }
    [{ id := 2, name := "Shoes" }] demoTee
    [{ id := "1_2", name := "Polo", price := 12, category := 1 }] rfl (by decide)
    (by decide) (by decide)

/-- C16: when the idle rule fires at time `now` on a text that is not the
menu command, the session is stored with a pending resume prompt and with
`lastInteraction` as it was. At every later time (the clock does not go
back) the idle rule fires again on the stored session; every text that is
not the menu command, `1` and `continue` included, gets the resume prompt and
nothing else and leaves the stored session, so its state and its cart, as it
is: the resume block is not reached. This holds along any sequence of such
messages. The menu command stores a session in state `main_menu` on which the
idle rule no longer fires. -/
theorem resume_prompt_loop (env : Env) (now : Int) (senderName : String)
    (userSession : Session) (messageContent : String)
    (hidle : isIdle now userSession = true)
    (hmenu : env.toLowerCase messageContent ≠ "menu") :
    (handleMessage env now senderName userSession messageContent).saved =
      { userSession with tempState := some "returning" } ∧
    (handleMessage env now senderName userSession messageContent).saved.lastInteraction =
      userSession.lastInteraction ∧
    (∀ (later : Int) (answer : String), now ≤ later → env.toLowerCase answer ≠ "menu" →
      isIdle later (handleMessage env now senderName userSession messageContent).saved = true ∧
      handleMessage env later senderName
          (handleMessage env now senderName userSession messageContent).saved answer =
        { sent := [{ body := .welcomeBack senderName }],
          saved := (handleMessage env now senderName userSession messageContent).saved }) ∧
    (∀ messages : List (Int × String),
      (∀ m ∈ messages, now ≤ m.1 ∧ env.toLowerCase m.2 ≠ "menu") →
      run env senderName
          (some (handleMessage env now senderName userSession messageContent).saved) messages =
        some (handleMessage env now senderName userSession messageContent).saved) ∧
    (∀ (later after : Int) (answer : String), env.toLowerCase answer = "menu" →
      (handleMessage env later senderName
          (handleMessage env now senderName userSession messageContent).saved
          answer).saved.state = .main_menu ∧
      isIdle after (handleMessage env later senderName
          (handleMessage env now senderName userSession messageContent).saved
          answer).saved = false) := by
  rw [handleMessage_of_idle env now senderName userSession messageContent hmenu hidle]
  refine ⟨rfl, rfl, ?_, ?_, ?_⟩
  · intro later answer hlater hanswer
    have hi := isIdle_returning_later now later userSession hidle hlater
    refine ⟨hi, ?_⟩
    rw [handleMessage_of_idle env later senderName _ answer hanswer hi]
  · intro messages hall
    exact run_returning env senderName now userSession hidle messages hall
  · intro later after answer hanswer
    simp [handleMessage, hanswer, isIdle]

/-- Witness of C16: the sample session, last used at time 1000, gets the
prompt for `hello` at time 3700000, and then for `1` and `continue`. -/
theorem resume_prompt_loop_witness :
    isIdle 3700000 demoSession = true ∧
    (handleMessage demoEnv 3700000 "Ann" demoSession "hello").saved =
      { demoSession with tempState := some "returning" } ∧
    run demoEnv "Ann" (some (handleMessage demoEnv 3700000 "Ann" demoSession "hello").saved)
        [(3705000, "1"), (3709000, "continue")] =
      some (handleMessage demoEnv 3700000 "Ann" demoSession "hello").saved :=
  ⟨by decide,
   (resume_prompt_loop demoEnv 3700000 "Ann" demoSession "hello" (by decide) (by decide)).1,
   (resume_prompt_loop demoEnv 3700000 "Ann" demoSession "hello" (by decide)
      (by decide)).2.2.2.1 [(3705000, "1"), (3709000, "continue")] (by decide)⟩

/-- C17: when the idle rule does not fire and no resume prompt is pending, a
session in state `cart` that receives a text whose lower-cased form is none
of `menu`, `checkout`, `continue`, and a session in state `checkout` that
receives a text whose lower-cased form is none of `menu`, `confirm`,
`cancel`, get no reply and no callback, and the session stored differs from
the one loaded in `lastInteraction` and `lastState` only. -/
theorem unmatched_input_is_silent (env : Env) (now : Int) (senderName : String)
    (userSession : Session) (messageContent : String)
    (hidle : isIdle now userSession = false)
    (htemp : userSession.tempState ≠ some "returning")
    (hmenu : env.toLowerCase messageContent ≠ "menu")
    (hcase :
      (userSession.state = .cart ∧ env.toLowerCase messageContent ≠ "checkout" ∧
        env.toLowerCase messageContent ≠ "continue") ∨
      (userSession.state = .checkout ∧ env.toLowerCase messageContent ≠ "confirm" ∧
        env.toLowerCase messageContent ≠ "cancel")) :
    (handleMessage env now senderName userSession messageContent).sent = [] ∧
    (handleMessage env now senderName userSession messageContent).deferred = none ∧
    (handleMessage env now senderName userSession messageContent).saved =
      { userSession with lastInteraction := some now,
                         lastState := some userSession.state } ∧
    (handleMessage env now senderName userSession messageContent).saved.state =
      userSession.state ∧
    (handleMessage env now senderName userSession messageContent).saved.cart =
      userSession.cart ∧
    (handleMessage env now senderName userSession messageContent).saved.currentCategory =
      userSession.currentCategory ∧
    (handleMessage env now senderName userSession messageContent).saved.currentItem =
      userSession.currentItem := by
  rw [handleMessage_of_dispatch env now senderName userSession messageContent hmenu hidle,
    resumeAnswer_of_not_returning env userSession messageContent htemp]
  rcases hcase with ⟨hs, h1, h2⟩ | ⟨hs, h1, h2⟩
  · simp [dispatch, hs, h1, h2]
  · simp [dispatch, hs, h1, h2]

/-- Witness of C17: the sample session, in state `cart`, receives `hello`
four seconds after its last interaction. -/
theorem unmatched_input_is_silent_witness :
    (handleMessage demoEnv 5000 "Ann" demoSession "hello").sent = [] ∧
    (handleMessage demoEnv 5000 "Ann" demoSession "hello").deferred = none ∧
    (handleMessage demoEnv 5000 "Ann" demoSession "hello").saved =
      { demoSession with lastInteraction := some 5000,
                         lastState := some demoSession.state } ∧
    (handleMessage demoEnv 5000 "Ann" demoSession "hello").saved.state =
      demoSession.state ∧
    (handleMessage demoEnv 5000 "Ann" demoSession "hello").saved.cart =
      demoSession.cart ∧
    (handleMessage demoEnv 5000 "Ann" demoSession "hello").saved.currentCategory =
      demoSession.currentCategory ∧
    (handleMessage demoEnv 5000 "Ann" demoSession "hello").saved.currentItem =
      demoSession.currentItem :=
  unmatched_input_is_silent demoEnv 5000 "Ann" demoSession "hello" (by decide) (by decide)
    (by decide) (Or.inl ⟨rfl, by decide, by decide⟩)

end ShopBot
